import Mathlib

/-!
Verification of the edgin_around simulation kernel against its specification.

The Python sources under `src/src` (geometry.py, tasks.py, entities.py,
animations.py) are embedded shallowly: float arithmetic becomes exact real
arithmetic over `ℝ`, mutation becomes explicit state passing, and Python's
`None` becomes `Option`.  Modules of the repository that are referenced but
whose sources are not available (state.py, essentials.py, features.py,
inventory.py, jobs.py, defs.py, craft.py, events.py, actions.py, scene.py)
are modelled from the specification; each such definition carries a doc
comment starting with `Modelled from the spec:`.
-/

open Real (pi)

/-! ## Geometry (src/src/geometry.py) -/

/-- Position expressed in geographical coordinates with radians;
from geometry.py, class `Coordinate`. -/
structure Coordinate where
  lat : ℝ
  lon : ℝ

/-- Position expressed in spherical coordinates; from geometry.py, class `Point`. -/
structure Point where
  theta : ℝ
  phi : ℝ

/-- From geometry.py, `Coordinates.spherical_to_cartesian`:
`z = r sin θ cos φ`, `x = r sin θ sin φ`, `y = r cos θ`, returned as `(x, y, z)`. -/
noncomputable def Coordinates.spherical_to_cartesian (r theta phi : ℝ) : ℝ × ℝ × ℝ :=
  (r * Real.sin theta * Real.sin phi, r * Real.cos theta, r * Real.sin theta * Real.cos phi)

/-- From geometry.py, `Coordinates.spherical_to_geographical_radians`:
`lat = π/2 - θ`, `lon = φ` if `φ ≤ π` else `φ - 2π`. -/
noncomputable def Coordinates.spherical_to_geographical_radians (r theta phi : ℝ) :
    ℝ × ℝ × ℝ :=
  (r, 0.5 * pi - theta, if phi ≤ pi then phi else phi - 2 * pi)

/-- From geometry.py, `Coordinates.geographical_radians_to_spherical`:
`θ = π/2 - lat`, `φ = lon` if `lon ≥ 0` else `lon + 2π`. -/
noncomputable def Coordinates.geographical_radians_to_spherical (r lat lon : ℝ) :
    ℝ × ℝ × ℝ :=
  (r, 0.5 * pi - lat, if 0 ≤ lon then lon else lon + 2 * pi)

/-- Python's `math.atan2 y x` on exact reals, i.e. the argument of the complex
number `x + y·i` (`atan2 0 0 = 0`, and the branch cut matches CPython's for
non-zero inputs). -/
noncomputable def atan2 (y x : ℝ) : ℝ := Complex.arg (Complex.mk x y)

/-- From geometry.py, `Coordinate.great_circle_distance_to` (haversine formula). -/
noncomputable def Coordinate.great_circle_distance_to (c other : Coordinate)
    (radius : ℝ) : ℝ :=
  let sin1 := Real.sin (0.5 * |c.lat - other.lat|)
  let sin2 := Real.sin (0.5 * |c.lon - other.lon|)
  2 * radius * Real.arcsin
    (Real.sqrt (sin1 * sin1 + Real.cos c.lat * Real.cos other.lat * sin2 * sin2))

/-- From geometry.py, `Coordinate.moved_by` (great-circle destination formula). -/
noncomputable def Coordinate.moved_by (c : Coordinate)
    (distance bearing radius : ℝ) : Coordinate :=
  let angular_distance := distance / radius
  let cad := Real.cos angular_distance
  let sad := Real.sin angular_distance
  let cb := Real.cos bearing
  let sb := Real.sin bearing
  let slat1 := Real.sin c.lat
  let clat1 := Real.cos c.lat
  let lat2 := Real.arcsin (slat1 * cad + clat1 * sad * cb)
  let slat2 := Real.sin lat2
  let lon2 := c.lon + atan2 (sb * sad * clat1) (cad - slat1 * slat2)
  Coordinate.mk lat2 lon2

/-- From geometry.py, `Coordinate.to_point`. -/
noncomputable def Coordinate.to_point (c : Coordinate) : Point :=
  let s := Coordinates.geographical_radians_to_spherical 1 c.lat c.lon
  Point.mk s.2.1 s.2.2

/-- From geometry.py, `Point.to_coordinate`. -/
noncomputable def Point.to_coordinate (p : Point) : Coordinate :=
  let g := Coordinates.spherical_to_geographical_radians 1 p.theta p.phi
  Coordinate.mk g.2.1 g.2.2

/-- From geometry.py, `Point.great_circle_distance_to`. -/
noncomputable def Point.great_circle_distance_to (p other : Point) (radius : ℝ) : ℝ :=
  (p.to_coordinate).great_circle_distance_to other.to_coordinate radius

/-- From geometry.py, `Point.moved_by`. -/
noncomputable def Point.moved_by (p : Point) (distance bearing radius : ℝ) : Point :=
  ((p.to_coordinate).moved_by distance bearing radius).to_point

/-- Unit-sphere cartesian embedding of a geographic coordinate, through the
source's conversion chain (`geographical_radians_to_spherical` with `r = 1`,
then `spherical_to_cartesian`). -/
noncomputable def Coordinate.to_cartesian (c : Coordinate) : ℝ × ℝ × ℝ :=
  let s := Coordinates.geographical_radians_to_spherical 1 c.lat c.lon
  Coordinates.spherical_to_cartesian s.1 s.2.1 s.2.2

/-- Euclidean dot product on ℝ³ triples. -/
def dot3 (a b : ℝ × ℝ × ℝ) : ℝ := a.1 * b.1 + a.2.1 * b.2.1 + a.2.2 * b.2.2

/-- World elevation function; from geometry.py, class `ElevationFunction`.
Only the radius is consulted by the verified components, so the terrain list
is not carried. -/
structure ElevationFunction where
  radius : ℝ

/-- From geometry.py, `ElevationFunction.get_radius`. -/
def ElevationFunction.get_radius (ef : ElevationFunction) : ℝ := ef.radius

/-! ## Core vocabulary (defs.py, craft.py, features.py — modelled where missing) -/

/-- Modelled from the spec: craft-material category tags (glossary: "Essence"). -/
inductive Essence where
  | ROCKS | GOLD | LOGS | TOOL | PLANT | HERO
deriving DecidableEq, Repr

/-- Modelled from the spec: interaction-capability tags (glossary: "Claim"). -/
inductive Claim where
  | PAIN | FOOD | CARGO
deriving DecidableEq, Repr

/-- Modelled from the spec: the two hand slots of an inventory. -/
inductive Hand where
  | LEFT | RIGHT
deriving DecidableEq, Repr

/-- Modelled from the spec: damage variants accepted by `Damageable`
(entities.py uses `defs.DamageVariant.CHOP`). -/
inductive DamageVariant where
  | HIT | CHOP | SMASH | ATTACK
deriving DecidableEq, Repr

/-- Modelled from the spec: the two variants of `InventoryUpdateTask`
(tasks.py dispatches on `defs.UpdateVariant.SWAP` / `MERGE`). -/
inductive UpdateVariant where
  | SWAP | MERGE
deriving DecidableEq, Repr

/-- Modelled from the spec: an inventory entry, "an item
reference/quantity/essence/codename". -/
structure Entry where
  id : Int
  essence : Essence
  quantity : Nat
  codename : String
deriving DecidableEq, Repr

/-- Modelled from the spec: the `Inventory` feature "owns hand slots
{LEFT, RIGHT} and indexed pocket slots". Pockets are an index-keyed
association list. -/
structure Inventory where
  left_hand : Option Entry := none
  right_hand : Option Entry := none
  pockets : List (Nat × Entry) := []
deriving DecidableEq, Repr

/-- Modelled from the spec: read a hand slot's entry. -/
def Inventory.get_hand_entry (inv : Inventory) (hand : Hand) : Option Entry :=
  match hand with
  | Hand.LEFT => inv.left_hand
  | Hand.RIGHT => inv.right_hand

/-- Modelled from the spec: read a pocket slot's entry. -/
def Inventory.get_pocket_entry (inv : Inventory) (index : Nat) : Option Entry :=
  (inv.pockets.find? (fun p => p.1 == index)).map Prod.snd

/-- Modelled from the spec: the item id currently held in a hand
(entities.py calls `inventory.get().get_hand(event.hand)`). -/
def Inventory.get_hand (inv : Inventory) (hand : Hand) : Option Int :=
  (inv.get_hand_entry hand).map Entry.id

/-- Modelled from the spec: overwrite a hand slot. -/
def Inventory.set_hand (inv : Inventory) (hand : Hand) (e : Option Entry) : Inventory :=
  match hand with
  | Hand.LEFT => { inv with left_hand := e }
  | Hand.RIGHT => { inv with right_hand := e }

/-- Modelled from the spec: overwrite a pocket slot. -/
def Inventory.set_pocket (inv : Inventory) (index : Nat) (e : Option Entry) : Inventory :=
  let rest := inv.pockets.filter (fun p => p.1 != index)
  match e with
  | none => { inv with pockets := rest }
  | some entry => { inv with pockets := (index, entry) :: rest }

/-- Modelled from the spec: `Inventory.store_entry` puts an item entry into the
given hand (used by `PickItemTask.finish`). -/
def Inventory.store_entry (inv : Inventory) (hand : Hand) (e : Entry) : Inventory :=
  inv.set_hand hand (some e)

/-- Modelled from the spec: the first free hand, `LEFT` before `RIGHT`, or
none when both are occupied (used by `CraftTask.start`). -/
def Inventory.get_free_hand (inv : Inventory) : Option Hand :=
  match inv.left_hand with
  | none => some Hand.LEFT
  | some _ =>
    match inv.right_hand with
    | none => some Hand.RIGHT
    | some _ => none

/-- Modelled from the spec: exchange the entries of a hand slot and a pocket
slot (`InventoryUpdateTask` with the `SWAP` variant). -/
def Inventory.swap (inv : Inventory) (hand : Hand) (index : Nat) : Inventory :=
  let he := inv.get_hand_entry hand
  let pe := inv.get_pocket_entry index
  (inv.set_hand hand pe).set_pocket index he

/-- Modelled from the spec: every entry of the inventory (hands and pockets). -/
def Inventory.all_entries (inv : Inventory) : List Entry :=
  inv.left_hand.toList ++ inv.right_hand.toList ++ inv.pockets.map Prod.snd

/-- Modelled from the spec: the `Inventorable` feature "can be picked up;
tracks which entity currently stores it". -/
structure Inventorable where
  stored_by : Option Int := none
deriving DecidableEq, Repr

/-- Modelled from the spec: the `Stackable` feature "carries a quantity;
mergeable with same-essence stacks"; the capacity bounds one stack
(spec §4.5, `merge_entities`). -/
structure Stackable where
  size : Nat
  capacity : Nat
deriving DecidableEq, Repr

/-- Modelled from the spec: the `Damageable` feature "health pool, max health,
accepted damage variant". -/
structure Damageable where
  health : Int
  max_health : Int
  damage_variant : DamageVariant
deriving DecidableEq, Repr

/-- Modelled from the spec: the `ToolOrWeapon` feature "per-purpose damage
values: hit, chop, smash, attack". -/
structure ToolOrWeapon where
  hit_damage : Int
  chop_damage : Int
  smash_damage : Int
  attack_damage : Int
deriving DecidableEq, Repr

/-- Modelled from the spec: the `Eater` feature "hunger capacity and
consumption rate". -/
structure Eater where
  max_capacity : ℝ
  hunger_value : ℝ

/-- Modelled from the spec: "a sparse set of orthogonal capabilities attached
to an Entity, each independently present or absent". -/
structure Features where
  inventorable : Option Inventorable := none
  stackable : Option Stackable := none
  damageable : Option Damageable := none
  tool_or_weapon : Option ToolOrWeapon := none
  inventory : Option Inventory := none
  eater : Option Eater := none
  performer : Bool := false

/-- Modelled from the spec: the claims an item's features can deliver
(glossary: "weapon→damageable, food→eater, item→inventory"; a `ToolOrWeapon`
delivers `PAIN`, an `Inventorable` delivers `CARGO`; no visible feature
delivers `FOOD`). -/
def Features.delivery_claims (f : Features) : List Claim :=
  (if f.tool_or_weapon.isSome then [Claim.PAIN] else [])
    ++ (if f.inventorable.isSome then [Claim.CARGO] else [])

/-- Modelled from the spec: whether the features can absorb a claim
(`Damageable` absorbs `PAIN`, `Eater` absorbs `FOOD`, `Inventory` absorbs
`CARGO`). -/
def Features.absorbs (f : Features) (c : Claim) : Bool :=
  match c with
  | Claim.PAIN => f.damageable.isSome
  | Claim.FOOD => f.eater.isSome
  | Claim.CARGO => f.inventory.isSome

/-- Modelled from the spec: `get_first_absorbed` returns the first of the
offered claims that the receiver's features absorb (used by
`UseItemTask.start`). -/
def Features.get_first_absorbed (f : Features) (claims : List Claim) : Option Claim :=
  claims.find? f.absorbs

/-! ## Entities (src/src/entities.py; base class modelled from the spec) -/

/-- Modelled from the spec: an Entity has an identity, an optional position,
a feature set, and a fixed kind (codename + essence).  The current Task is
tracked separately by the scheduler embedding. -/
structure Entity where
  id : Int
  position : Option Point
  codename : String
  essence : Essence
  features : Features

/-- Modelled from the spec: `Entity.get_name` returns the kind's codename
(`DieAndDropTask.start` reads `drop.get_name()`). -/
def Entity.get_name (e : Entity) : String := e.codename

/-- Modelled from the spec: `Entity.as_info` renders an entity as an inventory
entry (`PickItemTask.finish` stores `item.as_info()`); the quantity is the
stackable size when present, else 1. -/
def Entity.as_info (e : Entity) : Entry :=
  { id := e.id
    essence := e.essence
    quantity := match e.features.stackable with
      | some st => st.size
      | none => 1
    codename := e.codename }

/-- From entities.py, class `Rocks` (`set_inventorable`; `set_stackable(1)`;
the stack capacity of 20 is modelled from the spec's merge tests). -/
def mkRocks (id : Int) (position : Option Point) : Entity :=
  { id := id, position := position, codename := "rocks", essence := Essence.ROCKS
    features := { inventorable := some {}, stackable := some { size := 1, capacity := 20 } } }

/-- From entities.py, class `Gold`. -/
def mkGold (id : Int) (position : Option Point) : Entity :=
  { id := id, position := position, codename := "gold", essence := Essence.GOLD
    features := { inventorable := some {}, stackable := some { size := 1, capacity := 20 } } }

/-- From entities.py, class `Log` (`set_inventorable` only). -/
def mkLog (id : Int) (position : Option Point) : Entity :=
  { id := id, position := position, codename := "log", essence := Essence.LOGS
    features := { inventorable := some {} } }

/-- From entities.py, class `Axe` (`set_inventorable`;
`set_tool_or_weapon(hit 10, chop 100, smash 20, attack 50)`). -/
def mkAxe (id : Int) (position : Option Point) : Entity :=
  { id := id, position := position, codename := "axe", essence := Essence.TOOL
    features := { inventorable := some {}
                  tool_or_weapon := some { hit_damage := 10, chop_damage := 100
                                           smash_damage := 20, attack_damage := 50 } } }

/-- From entities.py, class `Spruce` (`set_damageable(200, 400, CHOP)`). -/
def mkSpruce (id : Int) (position : Option Point) : Entity :=
  { id := id, position := position, codename := "spruce", essence := Essence.PLANT
    features := { damageable := some { health := 200, max_health := 400
                                       damage_variant := DamageVariant.CHOP } } }

/-- From entities.py, class `Warrior` (`set_performer`). -/
def mkWarrior (id : Int) (position : Option Point) : Entity :=
  { id := id, position := position, codename := "warrior", essence := Essence.HERO
    features := { performer := true } }

/-- From entities.py, class `Pirate` (`set_inventory`;
`set_eater(max_capacity 100, hunger_value 50)`). -/
noncomputable def mkPirate (id : Int) (position : Option Point) : Entity :=
  { id := id, position := position, codename := "pirate", essence := Essence.HERO
    features := { inventory := some {}
                  eater := some { max_capacity := 100, hunger_value := 50 } } }

/-- From entities.py, `Spruce.generate_drops`: three `Log` entities at the
spruce's position, each constructed with the placeholder id `-1`; `none`
models the failing assertion when the spruce has no position. -/
def Spruce.generate_drops (e : Entity) : Option (List Entity) :=
  match e.position with
  | none => none
  | some p => some [mkLog (-1) (some p), mkLog (-1) (some p), mkLog (-1) (some p)]

/-! ## Events, jobs, actions, scene actors (modelled where missing) -/

/-- Modelled from the spec: the Event variants that tasks.py constructs.
Only `FinishedEvent(entity_id)` appears in the embedded task code. -/
inductive Event where
  | finished (entity_id : Int)
deriving DecidableEq, Repr

/-- Modelled from the spec: the Job kinds of the scheduler (§3 "Job",
§4.4): `MovementJob(entity_id, speed, bearing, timeout, events)`,
`WaitJob(duration, events)`, `DamageJob(dealer, receiver, item, hand, events)`. -/
inductive Job where
  | movement (entity_id : Int) (speed bearing : ℝ) (timeout : ℝ) (events : List Event)
  | wait (duration : ℝ) (events : List Event)
  | damage (dealer_id receiver_id item_id : Int) (hand : Hand) (events : List Event)

/-- Modelled from the spec: a scene actor record, built by
`DieAndDropTask.start` as `scene.Actor(drop.id, drop.get_name(), drop.position)`. -/
structure Actor where
  id : Int
  name : String
  position : Option Point

/-- Modelled from the spec: hero stats payload of `StatUpdateAction`
(kept abstract; no verified component inspects it). -/
structure Stats where
  hunger : ℝ

/-- Modelled from the spec: a crafting recipe source item
(`craft.Item(actor_id, essence, quantity)`). -/
structure CraftItem where
  actor_id : Int
  essence : Essence
  quantity : Nat
deriving DecidableEq, Repr

/-- Modelled from the spec: a crafting recipe instance, "a target codename
plus grouped source item requirements". -/
structure Assembly where
  recipe_codename : String
  sources : List (List CraftItem)
deriving DecidableEq, Repr

/-- The closed set of Action variants (spec §3 "Action"); payloads are the
fields read by animations.py.  (Namespaced as in the source module
`actions.py`, since `Action` itself is taken by Mathlib.) -/
inductive Actions.Action where
  | configuration (hero_actor_id : Int) (elevation_function : ElevationFunction)
  | craftStart (crafter_id : Int)
  | craftEnd (crafter_id : Int)
  | createActors (actors : List Actor)
  | deleteActors (actor_ids : List Int)
  | movement (actor_id : Int) (speed bearing duration : ℝ)
  | localize (actor_id : Int) (position : Point)
  | statUpdate (actor_id : Int) (stats : Stats)
  | pickStart (who what : Int)
  | pickEnd (who : Int)
  | updateInventory (owner_id : Int) (inventory : Inventory)
  | damage (dealer_id receiver_id : Int) (variant : DamageVariant) (hand : Hand)

/-! ## State (state.py — modelled from the spec §4.5) -/

/-- Modelled from the spec: "the authoritative registry of all Entities plus
the world's elevation/radius function". -/
structure State where
  elevation_function : ElevationFunction
  entities : List Entity

/-- Modelled from the spec: the world radius accessor. -/
def State.get_radius (s : State) : ℝ := s.elevation_function.radius

/-- Modelled from the spec: registry lookup by id (`get_entity(id) ->
Entity|none`). -/
def State.get_entity (s : State) (id : Int) : Option Entity :=
  s.entities.find? (fun e => e.id == id)

/-- The smallest id strictly greater than every registered id (and ≥ 1),
used to model fresh-id assignment. -/
def State.freshId (s : State) : Int :=
  (s.entities.map Entity.id).foldr max 0 + 1

/-- Modelled from the spec: `add_entity` inserts an entity into the registry;
"ids must be unique on insert" and drop/craft-created entities (which carry
the placeholder id `-1`) receive "a fresh id", so an entity whose id is
negative or already taken is stored under a fresh id.  Returns the stored
entity as well, mirroring Python's in-place id assignment. -/
def State.add_entity (s : State) (e : Entity) : State × Entity :=
  let e' := if e.id < 0 || (s.entities.any (fun x => x.id == e.id)) then
      { e with id := s.freshId }
    else e
  ({ s with entities := s.entities ++ [e'] }, e')

/-- Modelled from the spec: sequential insertion of several entities,
returning the stored entities in order (`DieAndDropTask.start` loops
`state.add_entity(drop)` over its drops). -/
def State.add_entities (s : State) : List Entity → State × List Entity
  | [] => (s, [])
  | d :: ds =>
    let p := s.add_entity d
    let q := p.1.add_entities ds
    (q.1, p.2 :: q.2)

/-- Modelled from the spec: registry removal by id. -/
def State.remove_entity (s : State) (id : Int) : State :=
  { s with entities := s.entities.filter (fun e => e.id != id) }

/-- Modelled from the spec: in-place update of the registered entity with the
given id (Python tasks mutate entities through references). -/
def State.update_entity (s : State) (id : Int) (f : Entity → Entity) : State :=
  { s with entities := s.entities.map (fun e => if e.id == id then f e else e) }

/-- Modelled from the spec: `calculate_distance(a, b) -> float|none`: none if
either entity lacks a position, otherwise great-circle distance using the
world radius. -/
noncomputable def State.calculate_distance (s : State) (a b : Entity) : Option ℝ :=
  match a.position, b.position with
  | some p1, some p2 => some (p1.great_circle_distance_to p2 s.get_radius)
  | _, _ => none

/-- Modelled from the spec: `find_closest_*_within` "scans live entities,
filters by feature/claim match and distance ≤ max_distance, returns the
nearest id or none; ties broken by registry iteration order (first
encountered)".  The origin entity itself is not a candidate. -/
noncomputable def State.find_closest_matching_within (s : State) (origin_id : Int)
    (accepts : Entity → Bool) (max_distance : ℝ) : Option Int :=
  match s.get_entity origin_id with
  | none => none
  | some origin =>
    let best := s.entities.foldl (fun best e =>
      if e.id == origin_id then best
      else if accepts e then
        match s.calculate_distance origin e with
        | none => best
        | some d =>
          if d ≤ max_distance then
            match best with
            | none => some (e.id, d)
            | some be => if d < be.2 then some (e.id, d) else best
          else best
      else best) none
    best.map Prod.fst

/-- Modelled from the spec: candidates of `find_closest_delivering_within`
must deliver one of the wanted claims. -/
noncomputable def State.find_closest_delivering_within (s : State) (origin_id : Int)
    (claims : List Claim) (max_distance : ℝ) : Option Int :=
  s.find_closest_matching_within origin_id
    (fun e => claims.any (fun c => e.features.delivery_claims.contains c)) max_distance

/-- Modelled from the spec: candidates of `find_closest_absorbing_within`
must absorb one of the offered claims. -/
noncomputable def State.find_closest_absorbing_within (s : State) (origin_id : Int)
    (claims : List Claim) (max_distance : ℝ) : Option Int :=
  s.find_closest_matching_within origin_id
    (fun e => claims.any e.features.absorbs) max_distance

/-- Modelled from the spec: `validate_assembly(assembly, inventory) -> bool`
"checks that for every required source group in the recipe, the inventory
holds matching essence/quantity at the referenced slot"; it never consumes
anything. -/
def State.validate_assembly (_s : State) (assembly : Assembly) (inv : Inventory) : Bool :=
  assembly.sources.all (fun group =>
    group.all (fun item =>
      inv.all_entries.any (fun entry =>
        entry.id == item.actor_id && entry.essence == item.essence
          && item.quantity ≤ entry.quantity)))

/-- Replace the size of an entity's stackable feature (helper for the merge
embedding). -/
def Entity.set_stack_size (e : Entity) (n : Nat) : Entity :=
  { e with features := { e.features with
      stackable := e.features.stackable.map (fun st => { st with size := n }) } }

/-- Modelled from the spec: `merge_entities(inventory, hand, pocket_index)`
"combines two stacks of identical essence at hand and pocket.  If combined
quantity fits one stack's capacity, the result is a single stack (one slot
and one backing Entity removed entirely, the other absorbing the full
quantity); if it overflows, the receiving stack is filled to capacity and the
remainder stays in the source slot/entity".  No merge occurs when the
essences differ.  Returns the updated registry and inventory. -/
def State.merge_entities (s : State) (inv : Inventory) (hand : Hand)
    (pocket_index : Nat) : State × Inventory :=
  match inv.get_hand_entry hand, inv.get_pocket_entry pocket_index with
  | some source, some target =>
    if source.essence == target.essence then
      match s.get_entity source.id, s.get_entity target.id with
      | some _, some targetEnt =>
        match targetEnt.features.stackable with
        | some tstack =>
          let total := source.quantity + target.quantity
          if total ≤ tstack.capacity then
            ((s.remove_entity source.id).update_entity target.id
                (fun e => e.set_stack_size total),
              (inv.set_hand hand none).set_pocket pocket_index
                (some { target with quantity := total }))
          else
            ((s.update_entity source.id
                  (fun e => e.set_stack_size (total - tstack.capacity))).update_entity
                target.id (fun e => e.set_stack_size tstack.capacity),
              (inv.set_hand hand
                  (some { source with quantity := total - tstack.capacity })).set_pocket
                pocket_index (some { target with quantity := tstack.capacity }))
        | none => (s, inv)
      | _, _ => (s, inv)
    else (s, inv)
  | _, _ => (s, inv)

/-! ## Tasks (src/src/tasks.py) -/

/-- From tasks.py, `MovementTask` (timeout constant 20 s; the `MovementJob`
is built in the constructor, so `get_job` always returns it). -/
structure MovementTask where
  entity_id : Int
  speed : ℝ
  bearing : ℝ

/-- From tasks.py, `MovementTask.TIMEOUT`. -/
noncomputable def MovementTask.TIMEOUT : ℝ := 20.0

/-- From tasks.py, `MovementTask.start`. -/
noncomputable def MovementTask.startT (s : State) (t : MovementTask) :
    State × MovementTask × List Actions.Action :=
  (s, t, [Actions.Action.movement t.entity_id t.speed t.bearing MovementTask.TIMEOUT])

/-- From tasks.py, `MovementTask.get_job` (the job built in `__init__`). -/
noncomputable def MovementTask.get_jobT (t : MovementTask) : Option Job :=
  some (Job.movement t.entity_id t.speed t.bearing MovementTask.TIMEOUT [])

/-- From tasks.py, `WalkTask`. -/
structure WalkTask where
  entity_id : Int
  speed : ℝ
  bearing : ℝ
  duration : ℝ

/-- From tasks.py, `WalkTask.start`. -/
noncomputable def WalkTask.startT (s : State) (t : WalkTask) :
    State × WalkTask × List Actions.Action :=
  (s, t, [Actions.Action.movement t.entity_id t.speed t.bearing t.duration])

/-- From tasks.py, `WalkTask.get_job`. -/
noncomputable def WalkTask.get_jobT (t : WalkTask) : Option Job :=
  some (Job.movement t.entity_id t.speed t.bearing t.duration [Event.finished t.entity_id])

/-- From tasks.py, `PickItemTask` (constants `PICK_DURATION = 1.0`,
`MAX_DISTANCE = 1.0`). -/
structure PickItemTask where
  who_id : Int
  what_id : Option Int
  hand : Hand
  job : Option Job

/-- From tasks.py, `PickItemTask.MAX_DISTANCE`. -/
noncomputable def PickItemTask.MAX_DISTANCE : ℝ := 1.0

/-- From tasks.py, `PickItemTask.PICK_DURATION`. -/
noncomputable def PickItemTask.PICK_DURATION : ℝ := 1.0

/-- The target id `PickItemTask.start` resolves: the stored `what_id`, or the
closest CARGO-delivering entity within `MAX_DISTANCE`. -/
noncomputable def PickItemTask.resolve (s : State) (t : PickItemTask) : Option Int :=
  match t.what_id with
  | some w => some w
  | none => s.find_closest_delivering_within t.who_id [Claim.CARGO] PickItemTask.MAX_DISTANCE

/-- From tasks.py, `PickItemTask.start`: resolves the target, checks presence
of both entities and the distance bound, then installs a `WaitJob` and emits
`PickStartAction`; every failed precondition returns an empty list. -/
noncomputable def PickItemTask.startT (s : State) (t : PickItemTask) :
    State × PickItemTask × List Actions.Action :=
  match PickItemTask.resolve s t with
  | none => (s, { t with what_id := none }, [])
  | some w =>
    let t1 : PickItemTask := { t with what_id := some w }
    match s.get_entity t.who_id, s.get_entity w with
    | some entity, some item =>
      match s.calculate_distance entity item with
      | none => (s, t1, [])
      | some distance =>
        if PickItemTask.MAX_DISTANCE < distance then (s, t1, [])
        else
          (s, { t1 with job := some (Job.wait PickItemTask.PICK_DURATION
                  [Event.finished t.who_id]) },
            [Actions.Action.pickStart t.who_id w])
    | _, _ => (s, t1, [])

/-- From tasks.py, `PickItemTask.get_job`. -/
noncomputable def PickItemTask.get_jobT (t : PickItemTask) : Option Job := t.job

/-- From tasks.py, `PickItemTask.finish`: re-validates target presence, the
`Inventory` and `Inventorable` features and the distance bound, then stores
the item in the picker's hand, marks the item as stored and clears its
position, and emits `PickEndAction` + `UpdateInventoryAction`. -/
noncomputable def PickItemTask.finishT (s : State) (t : PickItemTask) :
    State × List Actions.Action :=
  match t.what_id with
  | none => (s, [])
  | some w =>
    match s.get_entity t.who_id, s.get_entity w with
    | some entity, some item =>
      match entity.features.inventory, item.features.inventorable with
      | some inv, some invb =>
        match s.calculate_distance entity item with
        | none => (s, [])
        | some distance =>
          if PickItemTask.MAX_DISTANCE < distance then (s, [])
          else
            let newInv := inv.store_entry t.hand item.as_info
            let s1 := s.update_entity t.who_id (fun e =>
              { e with features := { e.features with inventory := some newInv } })
            let s2 := s1.update_entity w (fun e =>
              { e with position := none
                       features := { e.features with
                         inventorable := some { invb with stored_by := some entity.id } } })
            (s2, [Actions.Action.pickEnd t.who_id,
                  Actions.Action.updateInventory t.who_id newInv])
      | _, _ => (s, [])
    | _, _ => (s, [])

/-- From tasks.py, `UseItemTask` (`MAX_DISTANCE = 1.0`). -/
structure UseItemTask where
  performer_id : Int
  item_id : Int
  receiver_id : Option Int
  hand : Hand
  job : Option Job

/-- From tasks.py, `UseItemTask.MAX_DISTANCE`. -/
noncomputable def UseItemTask.MAX_DISTANCE : ℝ := 1.0

/-- The receiver id `UseItemTask.start` resolves.  The source keeps the stored
id only when it is truthy (`self.receiver_id if self.receiver_id else ...`),
so a stored id of `0` is re-resolved like `None`. -/
noncomputable def UseItemTask.resolve (s : State) (t : UseItemTask)
    (claims : List Claim) : Option Int :=
  match t.receiver_id with
  | some r =>
    if r == 0 then s.find_closest_absorbing_within t.performer_id claims UseItemTask.MAX_DISTANCE
    else some r
  | none => s.find_closest_absorbing_within t.performer_id claims UseItemTask.MAX_DISTANCE

/-- From tasks.py, `UseItemTask.start`: resolves a receiver for the item's
delivery claims, checks presence and distance, then dispatches on the first
absorbed claim — `PAIN` installs a `DamageJob`, `FOOD` and `CARGO` are
unimplemented no-ops.  Every branch, including the `PAIN` branch that
installs the job, falls through to `return list()`. -/
noncomputable def UseItemTask.startT (s : State) (t : UseItemTask) :
    State × UseItemTask × List Actions.Action :=
  match s.get_entity t.performer_id, s.get_entity t.item_id with
  | some performer, some item =>
    let claims := item.features.delivery_claims
    match UseItemTask.resolve s t claims with
    | none => (s, { t with receiver_id := none }, [])
    | some rid =>
      let t1 : UseItemTask := { t with receiver_id := some rid }
      match s.get_entity rid with
      | none => (s, t1, [])
      | some receiver =>
        match s.calculate_distance performer receiver with
        | none => (s, t1, [])
        | some distance =>
          if UseItemTask.MAX_DISTANCE < distance then (s, t1, [])
          else
            match receiver.features.get_first_absorbed claims with
            | some Claim.PAIN =>
              (s, { t1 with job := some (Job.damage t.performer_id rid t.item_id t.hand
                      [Event.finished t.performer_id]) }, [])
            | some Claim.FOOD => (s, t1, [])
            | some Claim.CARGO => (s, t1, [])
            | none => (s, t1, [])
  | _, _ => (s, t, [])

/-- From tasks.py, `UseItemTask.get_job`. -/
noncomputable def UseItemTask.get_jobT (t : UseItemTask) : Option Job := t.job

/-- From tasks.py, `UseItemTask.finish` (always empty). -/
noncomputable def UseItemTask.finishT (s : State) (_t : UseItemTask) :
    State × List Actions.Action := (s, [])

/-- From tasks.py, `InventoryUpdateTask` (`SWAP_DURATION = 0.01`). -/
structure InventoryUpdateTask where
  performer_id : Int
  hand : Hand
  inventory_index : Nat
  update_variant : UpdateVariant

/-- From tasks.py, `InventoryUpdateTask.SWAP_DURATION`. -/
noncomputable def InventoryUpdateTask.SWAP_DURATION : ℝ := 0.01

/-- From tasks.py, `InventoryUpdateTask.start` (always empty). -/
noncomputable def InventoryUpdateTask.startT (s : State) (t : InventoryUpdateTask) :
    State × InventoryUpdateTask × List Actions.Action := (s, t, [])

/-- From tasks.py, `InventoryUpdateTask.get_job` (always a fresh `WaitJob`). -/
noncomputable def InventoryUpdateTask.get_jobT (t : InventoryUpdateTask) : Option Job :=
  some (Job.wait InventoryUpdateTask.SWAP_DURATION [Event.finished t.performer_id])

/-- From tasks.py, `InventoryUpdateTask.finish`: swaps or merges the hand and
pocket slots of the performer's inventory and emits `UpdateInventoryAction`. -/
noncomputable def InventoryUpdateTask.finishT (s : State) (t : InventoryUpdateTask) :
    State × List Actions.Action :=
  match s.get_entity t.performer_id with
  | none => (s, [])
  | some performer =>
    match performer.features.inventory with
    | none => (s, [])
    | some inv =>
      match t.update_variant with
      | UpdateVariant.SWAP =>
        let inv1 := inv.swap t.hand t.inventory_index
        (s.update_entity t.performer_id (fun e =>
            { e with features := { e.features with inventory := some inv1 } }),
          [Actions.Action.updateInventory t.performer_id inv1])
      | UpdateVariant.MERGE =>
        let r := s.merge_entities inv t.hand t.inventory_index
        (r.1.update_entity t.performer_id (fun e =>
            { e with features := { e.features with inventory := some r.2 } }),
          [Actions.Action.updateInventory t.performer_id r.2])

/-- From tasks.py, `DieAndDropTask` (`DIE_DURATION = 0.01`; its `WaitJob` is
built in the constructor, so `get_job` always returns it). -/
structure DieAndDropTask where
  dier_id : Int
  drops : List Entity

/-- From tasks.py, `DieAndDropTask.DIE_DURATION`. -/
noncomputable def DieAndDropTask.DIE_DURATION : ℝ := 0.01

/-- From tasks.py, `DieAndDropTask.start`: if the dier is registered, adds
every drop to the registry and returns `CreateActorsAction` for the (stored)
drops followed by `DeleteActorsAction` for the dier's id.  It does not touch
the dier's registry entry itself. -/
noncomputable def DieAndDropTask.startT (s : State) (t : DieAndDropTask) :
    State × DieAndDropTask × List Actions.Action :=
  match s.get_entity t.dier_id with
  | none => (s, t, [])
  | some _ =>
    let r := s.add_entities t.drops
    (r.1, t,
      [Actions.Action.createActors (r.2.map (fun d => Actor.mk d.id d.get_name d.position)),
       Actions.Action.deleteActors [t.dier_id]])

/-- From tasks.py, `DieAndDropTask.get_job`. -/
noncomputable def DieAndDropTask.get_jobT (t : DieAndDropTask) : Option Job :=
  some (Job.wait DieAndDropTask.DIE_DURATION [Event.finished t.dier_id])

/-- From tasks.py, `DieAndDropTask.finish` (always empty). -/
noncomputable def DieAndDropTask.finishT (s : State) (_t : DieAndDropTask) :
    State × List Actions.Action := (s, [])

/-- From tasks.py, `CraftTask` (`CRAFT_DURATION = 1.0`). -/
structure CraftTask where
  crafter_id : Int
  assembly : Assembly
  job : Option Job

/-- From tasks.py, `CraftTask.CRAFT_DURATION`. -/
noncomputable def CraftTask.CRAFT_DURATION : ℝ := 1.0

/-- From tasks.py, `CraftTask.start`: requires the crafter to exist, to have
the `Inventory` feature, to have a free hand, and the assembly to validate —
in that order; then installs a `WaitJob` and emits `CraftStartAction`. -/
noncomputable def CraftTask.startT (s : State) (t : CraftTask) :
    State × CraftTask × List Actions.Action :=
  match s.get_entity t.crafter_id with
  | none => (s, t, [])
  | some crafter =>
    match crafter.features.inventory with
    | none => (s, t, [])
    | some inv =>
      match inv.get_free_hand with
      | none => (s, t, [])
      | some _ =>
        if s.validate_assembly t.assembly inv then
          (s, { t with job := some (Job.wait CraftTask.CRAFT_DURATION
                  [Event.finished t.crafter_id]) },
            [Actions.Action.craftStart t.crafter_id])
        else (s, t, [])

/-- From tasks.py, `CraftTask.get_job`. -/
noncomputable def CraftTask.get_jobT (t : CraftTask) : Option Job := t.job

/-- The closed set of Task kinds defined in tasks.py, as one sum type
(namespaced as in the source module `essentials.py`, since `Task` is taken
by the Lean core). -/
inductive Essentials.Task where
  | movement (t : MovementTask)
  | walk (t : WalkTask)
  | pickItem (t : PickItemTask)
  | useItem (t : UseItemTask)
  | inventoryUpdate (t : InventoryUpdateTask)
  | dieAndDrop (t : DieAndDropTask)
  | craft (t : CraftTask)

/-- Dispatch of `start(state)` over the Task kinds; returns the possibly
updated state, the task after `start` mutated it, and the emitted Actions. -/
noncomputable def Essentials.Task.start (s : State) :
    Essentials.Task → State × Essentials.Task × List Actions.Action
  | Essentials.Task.movement t =>
    let r := MovementTask.startT s t
    (r.1, Essentials.Task.movement r.2.1, r.2.2)
  | Essentials.Task.walk t =>
    let r := WalkTask.startT s t
    (r.1, Essentials.Task.walk r.2.1, r.2.2)
  | Essentials.Task.pickItem t =>
    let r := PickItemTask.startT s t
    (r.1, Essentials.Task.pickItem r.2.1, r.2.2)
  | Essentials.Task.useItem t =>
    let r := UseItemTask.startT s t
    (r.1, Essentials.Task.useItem r.2.1, r.2.2)
  | Essentials.Task.inventoryUpdate t =>
    let r := InventoryUpdateTask.startT s t
    (r.1, Essentials.Task.inventoryUpdate r.2.1, r.2.2)
  | Essentials.Task.dieAndDrop t =>
    let r := DieAndDropTask.startT s t
    (r.1, Essentials.Task.dieAndDrop r.2.1, r.2.2)
  | Essentials.Task.craft t =>
    let r := CraftTask.startT s t
    (r.1, Essentials.Task.craft r.2.1, r.2.2)

/-- Dispatch of `get_job()` over the Task kinds. -/
noncomputable def Essentials.Task.get_job : Essentials.Task → Option Job
  | Essentials.Task.movement t => t.get_jobT
  | Essentials.Task.walk t => t.get_jobT
  | Essentials.Task.pickItem t => t.get_jobT
  | Essentials.Task.useItem t => t.get_jobT
  | Essentials.Task.inventoryUpdate t => t.get_jobT
  | Essentials.Task.dieAndDrop t => t.get_jobT
  | Essentials.Task.craft t => t.get_jobT

/-- The Task kinds whose `start` never installs a Job silently: Movement,
Walk, PickItem and Craft. -/
def Essentials.Task.startJobCoupled : Essentials.Task → Bool
  | Essentials.Task.movement _ => true
  | Essentials.Task.walk _ => true
  | Essentials.Task.pickItem _ => true
  | Essentials.Task.craft _ => true
  | _ => false

/-! ## Animations (src/src/animations.py) -/

/-- The runtime type of an Action (`type(action)` in Python), used as the key
of the animation-constructor table. -/
inductive ActionTag where
  | configuration | craftStart | craftEnd | createActors | deleteActors | movement
  | localize | statUpdate | pickStart | pickEnd | updateInventory | damage
deriving DecidableEq, Repr

/-- The runtime type of each Action variant. -/
def Actions.Action.tag : Actions.Action → ActionTag
  | Actions.Action.configuration _ _ => ActionTag.configuration
  | Actions.Action.craftStart _ => ActionTag.craftStart
  | Actions.Action.craftEnd _ => ActionTag.craftEnd
  | Actions.Action.createActors _ => ActionTag.createActors
  | Actions.Action.deleteActors _ => ActionTag.deleteActors
  | Actions.Action.movement _ _ _ _ => ActionTag.movement
  | Actions.Action.localize _ _ => ActionTag.localize
  | Actions.Action.statUpdate _ _ => ActionTag.statUpdate
  | Actions.Action.pickStart _ _ => ActionTag.pickStart
  | Actions.Action.pickEnd _ => ActionTag.pickEnd
  | Actions.Action.updateInventory _ _ => ActionTag.updateInventory
  | Actions.Action.damage _ _ _ _ => ActionTag.damage

/-- The Animation variants of animations.py, carrying the fields each
animation's constructor copies out of its Action.  The wall-clock bookkeeping
(`start_time`, `expired`) is outside the embedding. -/
inductive Animation where
  | configuration (hero_actor_id : Int) (elevation_function : ElevationFunction)
  | craftStart (crafter_id : Int)
  | craftEnd (crafter_id : Int)
  | createActors (actors : List Actor)
  | deleteActors (actor_ids : List Int)
  | movement (actor_id : Int) (speed bearing duration : ℝ)
  | localize (actor_id : Int) (position : Point)
  | statUpdate (actor_id : Int) (stats : Stats)
  | pickStart (actor_id item_id : Int)
  | pickEnd (actor_id : Int)
  | updateInventory (owner_id : Int) (inventory : Inventory)
  | damage (dealer_id receiver_id : Int) (variant : DamageVariant) (hand : Hand)

/-- The runtime type of an Animation, to state which Animation type each
Action maps to. -/
inductive AnimationTag where
  | configuration | craftStart | craftEnd | createActors | deleteActors | movement
  | localize | statUpdate | pickStart | pickEnd | updateInventory | damage
deriving DecidableEq, Repr

/-- The runtime type of each Animation variant. -/
def Animation.tag : Animation → AnimationTag
  | Animation.configuration _ _ => AnimationTag.configuration
  | Animation.craftStart _ => AnimationTag.craftStart
  | Animation.craftEnd _ => AnimationTag.craftEnd
  | Animation.createActors _ => AnimationTag.createActors
  | Animation.deleteActors _ => AnimationTag.deleteActors
  | Animation.movement _ _ _ _ => AnimationTag.movement
  | Animation.localize _ _ => AnimationTag.localize
  | Animation.statUpdate _ _ => AnimationTag.statUpdate
  | Animation.pickStart _ _ => AnimationTag.pickStart
  | Animation.pickEnd _ => AnimationTag.pickEnd
  | Animation.updateInventory _ _ => AnimationTag.updateInventory
  | Animation.damage _ _ _ _ => AnimationTag.damage

/-- The Animation type `_ANIMITION_CONSTRUCTORS` maps each Action type to. -/
def animationTagOf : ActionTag → AnimationTag
  | ActionTag.configuration => AnimationTag.configuration
  | ActionTag.craftStart => AnimationTag.craftStart
  | ActionTag.craftEnd => AnimationTag.craftEnd
  | ActionTag.createActors => AnimationTag.createActors
  | ActionTag.deleteActors => AnimationTag.deleteActors
  | ActionTag.movement => AnimationTag.movement
  | ActionTag.localize => AnimationTag.localize
  | ActionTag.statUpdate => AnimationTag.statUpdate
  | ActionTag.pickStart => AnimationTag.pickStart
  | ActionTag.pickEnd => AnimationTag.pickEnd
  | ActionTag.updateInventory => AnimationTag.updateInventory
  | ActionTag.damage => AnimationTag.damage

/-- Each Animation class's constructor: copies the fields of the matching
Action variant; applied to any other variant it fails (Python would raise an
AttributeError reading a missing field). -/
def animationConstructor : ActionTag → Actions.Action → Option Animation
  | ActionTag.configuration, Actions.Action.configuration hero ef =>
    some (Animation.configuration hero ef)
  | ActionTag.craftStart, Actions.Action.craftStart cid => some (Animation.craftStart cid)
  | ActionTag.craftEnd, Actions.Action.craftEnd cid => some (Animation.craftEnd cid)
  | ActionTag.createActors, Actions.Action.createActors actors =>
    some (Animation.createActors actors)
  | ActionTag.deleteActors, Actions.Action.deleteActors ids =>
    some (Animation.deleteActors ids)
  | ActionTag.movement, Actions.Action.movement aid sp b dur =>
    some (Animation.movement aid sp b dur)
  | ActionTag.localize, Actions.Action.localize aid pos => some (Animation.localize aid pos)
  | ActionTag.statUpdate, Actions.Action.statUpdate aid st =>
    some (Animation.statUpdate aid st)
  | ActionTag.pickStart, Actions.Action.pickStart who what =>
    some (Animation.pickStart who what)
  | ActionTag.pickEnd, Actions.Action.pickEnd who => some (Animation.pickEnd who)
  | ActionTag.updateInventory, Actions.Action.updateInventory oid inv =>
    some (Animation.updateInventory oid inv)
  | ActionTag.damage, Actions.Action.damage d r v h => some (Animation.damage d r v h)
  | _, _ => none

/-- From animations.py, `_ANIMITION_CONSTRUCTORS`: the Action-type-keyed
table of Animation constructors (all twelve Action types are present). -/
def animitionConstructorsTable : List (ActionTag × (Actions.Action → Option Animation)) :=
  [ (ActionTag.configuration, animationConstructor ActionTag.configuration),
    (ActionTag.craftStart, animationConstructor ActionTag.craftStart),
    (ActionTag.craftEnd, animationConstructor ActionTag.craftEnd),
    (ActionTag.createActors, animationConstructor ActionTag.createActors),
    (ActionTag.deleteActors, animationConstructor ActionTag.deleteActors),
    (ActionTag.movement, animationConstructor ActionTag.movement),
    (ActionTag.localize, animationConstructor ActionTag.localize),
    (ActionTag.statUpdate, animationConstructor ActionTag.statUpdate),
    (ActionTag.pickStart, animationConstructor ActionTag.pickStart),
    (ActionTag.pickEnd, animationConstructor ActionTag.pickEnd),
    (ActionTag.updateInventory, animationConstructor ActionTag.updateInventory),
    (ActionTag.damage, animationConstructor ActionTag.damage) ]

/-- From animations.py, `animation_from_action`: looks the Action's runtime
type up in the table and applies the constructor; a missing key (Python's
KeyError) or a constructor failure yields `none`. -/
def animation_from_action (action : Actions.Action) : Option Animation :=
  match animitionConstructorsTable.find? (fun p => p.1 == action.tag) with
  | none => none
  | some p => p.2 action

/-- A Task as freshly constructed by tasks.py: the mutable `job` attribute of
PickItem, UseItem and Craft tasks starts out as `None`. -/
def Essentials.Task.freshlyConstructed : Essentials.Task → Prop
  | Essentials.Task.pickItem t => t.job = none
  | Essentials.Task.useItem t => t.job = none
  | Essentials.Task.craft t => t.job = none
  | _ => True

/-- The precondition failures of `PickItemTask.start`: no target resolved,
picker or item not registered, or distance undefined or beyond the bound.
(`PickItemTask.start` performs no feature checks.) -/
noncomputable def PickItemTask.startFails (s : State) (t : PickItemTask) : Prop :=
  match PickItemTask.resolve s t with
  | none => True
  | some w =>
    match s.get_entity t.who_id, s.get_entity w with
    | some who, some item =>
      match s.calculate_distance who item with
      | none => True
      | some d => PickItemTask.MAX_DISTANCE < d
    | _, _ => True

/-- The precondition failures of `PickItemTask.finish`: no target, absent
entities, picker without the `Inventory` feature, item without the
`Inventorable` feature, or distance undefined or beyond the bound. -/
noncomputable def PickItemTask.finishFails (s : State) (t : PickItemTask) : Prop :=
  match t.what_id with
  | none => True
  | some w =>
    match s.get_entity t.who_id, s.get_entity w with
    | some who, some item =>
      who.features.inventory = none ∨ item.features.inventorable = none
        ∨ match s.calculate_distance who item with
          | none => True
          | some d => PickItemTask.MAX_DISTANCE < d
    | _, _ => True

/-- Harness for the merge invariant, mirroring test_state.py's merge tests:
two rock stacks of sizes `S` and `T` with capacity `C`, ids 1 and 2; the LEFT
hand holds stack 1 and pocket 2 holds stack 2. -/
def mergeScenarioState (S T C : Nat) : State :=
  State.mk (ElevationFunction.mk 1000)
    [ Entity.mk 1 none "rocks" Essence.ROCKS
        (Features.mk (some (Inventorable.mk none)) (some (Stackable.mk S C))
          none none none none false),
      Entity.mk 2 none "rocks" Essence.ROCKS
        (Features.mk (some (Inventorable.mk none)) (some (Stackable.mk T C))
          none none none none false) ]

/-- The inventory of the merge harness. -/
def mergeScenarioInventory (S T : Nat) : Inventory :=
  Inventory.mk (some (Entry.mk 1 Essence.ROCKS S "")) none [(2, Entry.mk 2 Essence.ROCKS T "")]

/-- The stackable size of the registered entity with the given id. -/
def State.stack_size_of (s : State) (id : Int) : Option Nat :=
  (s.get_entity id).bind (fun e => e.features.stackable.map Stackable.size)

/-! ## Theorems -/

/-- Half-angle identity for the haversine terms: `sin²(|x|/2) = (1 - cos x)/2`. -/
theorem sin_half_abs_sq (x : ℝ) :
    Real.sin (0.5 * |x|) * Real.sin (0.5 * |x|) = (1 - Real.cos x) / 2 := by
  have key : ∀ y : ℝ, Real.sin (0.5 * y) * Real.sin (0.5 * y) = (1 - Real.cos y) / 2 := by
    intro y
    have h := Real.sin_sq_eq_half_sub (0.5 * y)
    rw [show (2 : ℝ) * (0.5 * y) = y by ring] at h
    rw [pow_two] at h
    rw [h]; ring
  rcases abs_cases x with ⟨h, _⟩ | ⟨h, _⟩
  · rw [h]; exact key x
  · rw [h, key (-x), Real.cos_neg]

/-- The haversine formula of `great_circle_distance_to` equals radius times
the arccosine of the spherical dot product, for valid latitudes. -/
theorem great_circle_distance_arccos (c1 c2 : Coordinate) (radius : ℝ)
    (k1 : 0 ≤ Real.cos c1.lat) (k2 : 0 ≤ Real.cos c2.lat) :
    c1.great_circle_distance_to c2 radius
      = radius * Real.arccos (Real.sin c1.lat * Real.sin c2.lat
          + Real.cos c1.lat * Real.cos c2.lat * Real.cos (c1.lon - c2.lon)) := by
  set dot := Real.sin c1.lat * Real.sin c2.lat
      + Real.cos c1.lat * Real.cos c2.lat * Real.cos (c1.lon - c2.lon) with hdotdef
  have hcosub : Real.cos (c1.lat - c2.lat)
      = Real.cos c1.lat * Real.cos c2.lat + Real.sin c1.lat * Real.sin c2.lat :=
    Real.cos_sub _ _
  have hdot_le : dot ≤ 1 := by
    have h1 : Real.cos (c1.lon - c2.lon) ≤ 1 := Real.cos_le_one _
    have h2 : Real.cos (c1.lat - c2.lat) ≤ 1 := Real.cos_le_one _
    nlinarith [mul_nonneg k1 k2]
  have hdot_ge : -1 ≤ dot := by
    have h1 : -1 ≤ Real.cos (c1.lon - c2.lon) := Real.neg_one_le_cos _
    have h2 : Real.cos (c1.lat + c2.lat) ≤ 1 := Real.cos_le_one _
    have h3 : Real.cos (c1.lat + c2.lat)
        = Real.cos c1.lat * Real.cos c2.lat - Real.sin c1.lat * Real.sin c2.lat :=
      Real.cos_add _ _
    have hp : 0 ≤ Real.cos c1.lat * Real.cos c2.lat * (Real.cos (c1.lon - c2.lon) + 1) :=
      mul_nonneg (mul_nonneg k1 k2) (by linarith)
    nlinarith [hp]
  have hsum : Real.sin (0.5 * |c1.lat - c2.lat|) * Real.sin (0.5 * |c1.lat - c2.lat|)
      + Real.cos c1.lat * Real.cos c2.lat
        * Real.sin (0.5 * |c1.lon - c2.lon|) * Real.sin (0.5 * |c1.lon - c2.lon|)
      = (1 - dot) / 2 := by
    rw [hdotdef]
    linear_combination sin_half_abs_sq (c1.lat - c2.lat)
      + Real.cos c1.lat * Real.cos c2.lat * sin_half_abs_sq (c1.lon - c2.lon)
      - hcosub / 2
  have harc0 : 0 ≤ Real.arccos dot := Real.arccos_nonneg dot
  have harcpi : Real.arccos dot ≤ Real.pi := Real.arccos_le_pi dot
  have hsin_half : Real.sin (Real.arccos dot / 2) ^ 2 = (1 - dot) / 2 := by
    rw [Real.sin_sq_eq_half_sub,
      show (2 : ℝ) * (Real.arccos dot / 2) = Real.arccos dot by ring,
      Real.cos_arccos hdot_ge hdot_le]
    ring
  have hsqrt : Real.sqrt ((1 - dot) / 2) = Real.sin (Real.arccos dot / 2) := by
    rw [← hsin_half]
    exact Real.sqrt_sq (Real.sin_nonneg_of_nonneg_of_le_pi (by linarith) (by linarith))
  simp only [Coordinate.great_circle_distance_to]
  rw [hsum, hsqrt, Real.arcsin_sin (by linarith) (by linarith)]
  ring

/-- The dot product of the source's unit-sphere cartesian embeddings equals
the spherical cosine expression (the `lon + 2π` normalization is invisible to
it). -/
theorem dot3_to_cartesian (c1 c2 : Coordinate) :
    dot3 c1.to_cartesian c2.to_cartesian
      = Real.sin c1.lat * Real.sin c2.lat
        + Real.cos c1.lat * Real.cos c2.lat * Real.cos (c1.lon - c2.lon) := by
  have hs : ∀ x : ℝ, Real.sin (0.5 * pi - x) = Real.cos x := fun x => by
    rw [show (0.5 : ℝ) * pi - x = pi / 2 - x by ring]
    exact Real.sin_pi_div_two_sub x
  have hc : ∀ x : ℝ, Real.cos (0.5 * pi - x) = Real.sin x := fun x => by
    rw [show (0.5 : ℝ) * pi - x = pi / 2 - x by ring]
    exact Real.cos_pi_div_two_sub x
  simp only [Coordinate.to_cartesian, Coordinates.geographical_radians_to_spherical,
    Coordinates.spherical_to_cartesian, dot3, hs, hc, one_mul]
  by_cases h1 : 0 ≤ c1.lon <;> by_cases h2 : 0 ≤ c2.lon <;>
      simp only [h1, h2, if_true, if_false, reduceIte]
  · rw [Real.cos_sub]; ring
  · rw [Real.sin_add_two_pi, Real.cos_add_two_pi, Real.cos_sub]; ring
  · rw [Real.sin_add_two_pi, Real.cos_add_two_pi, Real.cos_sub]; ring
  · rw [Real.sin_add_two_pi, Real.cos_add_two_pi, Real.sin_add_two_pi,
      Real.cos_add_two_pi, Real.cos_sub]
    ring

/-- `atan2 0 0 = 0`, as in CPython for positive zeros. -/
theorem atan2_zero_zero : atan2 0 0 = 0 := by
  have h : Complex.mk 0 0 = 0 := by
    simp [Complex.ext_iff]
  rw [atan2, h, Complex.arg_zero]

/-- Away from the origin, `cos (atan2 y x) = x / √(x² + y²)`. -/
theorem cos_atan2 (y x : ℝ) (h : ¬(x = 0 ∧ y = 0)) :
    Real.cos (atan2 y x) = x / Real.sqrt (x ^ 2 + y ^ 2) := by
  have hz : Complex.mk x y ≠ 0 := by
    simp only [ne_eq, Complex.ext_iff, Complex.zero_re, Complex.zero_im]
    exact fun hh => h ⟨hh.1, hh.2⟩
  have harg := Complex.cos_arg hz
  rw [atan2, harg]
  have habs : Complex.abs (Complex.mk x y) = Real.sqrt (x ^ 2 + y ^ 2) := by
    rw [Complex.abs_apply, Complex.normSq_mk]
    congr 1
    ring
  rw [habs]

/-- C7: for any two points on the sphere (valid latitudes) whose central
angular separation is `d` — i.e. the dot product of their unit cartesian
embeddings is `cos d`, with `0 ≤ d ≤ π` — `great_circle_distance_to` returns
`radius * d`: the haversine expression equals the radius times the angular
separation, over exact real arithmetic. -/
theorem great_circle_distance_to_eq_radius_mul_separation
    (c1 c2 : Coordinate) (radius d : ℝ)
    (h1l : -(pi / 2) ≤ c1.lat) (h1u : c1.lat ≤ pi / 2)
    (h2l : -(pi / 2) ≤ c2.lat) (h2u : c2.lat ≤ pi / 2)
    (hd0 : 0 ≤ d) (hdpi : d ≤ pi)
    (hsep : dot3 c1.to_cartesian c2.to_cartesian = Real.cos d) :
    c1.great_circle_distance_to c2 radius = radius * d := by
  have k1 : 0 ≤ Real.cos c1.lat := Real.cos_nonneg_of_mem_Icc ⟨h1l, h1u⟩
  have k2 : 0 ≤ Real.cos c2.lat := Real.cos_nonneg_of_mem_Icc ⟨h2l, h2u⟩
  rw [great_circle_distance_arccos c1 c2 radius k1 k2, ← dot3_to_cartesian, hsep,
    Real.arccos_cos hd0 hdpi]

/-- Witness for C7: two coincident points at latitude 0, longitude 0 on a
sphere of radius 5 are separated by angular distance 0, and the computed
distance is `5 * 0`. -/
theorem great_circle_distance_to_eq_radius_mul_separation_witness :
    Coordinate.great_circle_distance_to ⟨0, 0⟩ ⟨0, 0⟩ 5 = 5 * 0 := by
  have hpi := Real.pi_pos
  have h05 : (0.5 : ℝ) * pi = pi / 2 := by ring
  refine great_circle_distance_to_eq_radius_mul_separation ⟨0, 0⟩ ⟨0, 0⟩ 5 0
    (by linarith) (by linarith) (by linarith) (by linarith) le_rfl hpi.le ?_
  simp [Coordinate.to_cartesian, Coordinates.geographical_radians_to_spherical,
    Coordinates.spherical_to_cartesian, dot3, h05]

/-- Algebraic core of the destination formula: with `s,cl` the sine/cosine of
the start latitude, `C,S` of the angular distance and `β,sb` of the bearing,
the spherical dot product between start and destination equals `C`. -/
theorem dest_dot_core (s cl C S β sb : ℝ)
    (hpy1 : s ^ 2 + cl ^ 2 = 1) (hpy2 : sb ^ 2 + β ^ 2 = 1) (hpy3 : S ^ 2 + C ^ 2 = 1)
    (hcl : 0 ≤ cl) :
    s * (s * C + cl * S * β)
      + cl * Real.sqrt (1 - (s * C + cl * S * β) ^ 2)
        * Real.cos (atan2 (sb * S * cl) (C - s * (s * C + cl * S * β)))
      = C := by
  have hident : (cl * C - s * S * β) ^ 2 + (sb * S) ^ 2
      = 1 - (s * C + cl * S * β) ^ 2 := by
    linear_combination hpy3 + S ^ 2 * hpy2 + (C ^ 2 + S ^ 2 * β ^ 2) * hpy1
  have hxu : C - s * (s * C + cl * S * β) = cl * (cl * C - s * S * β) := by
    linear_combination (-C) * hpy1
  have hyv : sb * S * cl = cl * (sb * S) := by ring
  by_cases hzero : C - s * (s * C + cl * S * β) = 0 ∧ sb * S * cl = 0
  · rw [hzero.2, hzero.1, atan2_zero_zero, Real.cos_zero, mul_one]
    by_cases hc0 : cl = 0
    · have hs2 : s ^ 2 = 1 := by nlinarith
      rw [hc0]
      linear_combination C * hs2
    · have hu0 : cl * C - s * S * β = 0 := by
        have hx := hzero.1
        rw [hxu] at hx
        rcases mul_eq_zero.mp hx with h | h
        · exact absurd h hc0
        · exact h
      have hv0 : sb * S = 0 := by
        have hy := hzero.2
        rw [hyv] at hy
        rcases mul_eq_zero.mp hy with h | h
        · exact absurd h hc0
        · exact h
      have hk1 : 1 - (s * C + cl * S * β) ^ 2 = 0 := by
        rw [← hident, hu0, hv0]
        ring
      rw [hk1, Real.sqrt_zero, mul_zero, add_zero]
      have hx := hzero.1
      linarith
  · rw [cos_atan2 _ _ hzero]
    have hc0 : cl ≠ 0 := by
      intro hc
      exact hzero ⟨by rw [hxu, hc, zero_mul], by rw [hyv, hc, zero_mul]⟩
    have hw1 : 0 ≤ 1 - (s * C + cl * S * β) ^ 2 := by
      nlinarith [hident, sq_nonneg (cl * C - s * S * β), sq_nonneg (sb * S)]
    have hw0 : 1 - (s * C + cl * S * β) ^ 2 ≠ 0 := by
      intro hw
      apply hzero
      have hsum0 : (cl * C - s * S * β) ^ 2 + (sb * S) ^ 2 = 0 := by
        rw [hident]
        exact hw
      have hu0 : cl * C - s * S * β = 0 := by
        have h1 := sq_nonneg (cl * C - s * S * β)
        have h2 := sq_nonneg (sb * S)
        have h3 : (cl * C - s * S * β) ^ 2 = 0 := by linarith
        exact pow_eq_zero_iff (two_ne_zero) |>.mp h3
      have hv0 : sb * S = 0 := by
        have h1 := sq_nonneg (cl * C - s * S * β)
        have h2 := sq_nonneg (sb * S)
        have h3 : (sb * S) ^ 2 = 0 := by linarith
        exact pow_eq_zero_iff (two_ne_zero) |>.mp h3
      exact ⟨by rw [hxu, hu0, mul_zero], by rw [hyv, hv0, mul_zero]⟩
    have hsne : Real.sqrt (1 - (s * C + cl * S * β) ^ 2) ≠ 0 := by
      intro hs0
      exact hw0 ((Real.sqrt_eq_zero hw1).mp hs0)
    have hsq : (C - s * (s * C + cl * S * β)) ^ 2 + (sb * S * cl) ^ 2
        = cl ^ 2 * (1 - (s * C + cl * S * β) ^ 2) := by
      rw [hxu, hyv, ← hident]
      ring
    rw [hsq, Real.sqrt_mul (sq_nonneg cl), Real.sqrt_sq hcl]
    have hD : cl * Real.sqrt (1 - (s * C + cl * S * β) ^ 2) ≠ 0 := mul_ne_zero hc0 hsne
    rw [mul_comm (cl * Real.sqrt (1 - (s * C + cl * S * β) ^ 2))
        ((C - s * (s * C + cl * S * β)) / (cl * Real.sqrt (1 - (s * C + cl * S * β) ^ 2))),
      div_mul_cancel₀ _ hD]
    ring

/-- C6: for any coordinate (valid latitude), bearing, radius `r > 0` and
distance `0 ≤ d ≤ π·r`, the great-circle distance between the coordinate and
`moved_by d bearing r` is exactly `d` over exact real arithmetic; hence after
an elapsed interval `t` at speed `v` the position advances by great-circle
distance `v*t` along the bearing (instantiate `d := v*t`). -/
theorem moved_by_advances_great_circle_distance
    (c : Coordinate) (bearing radius d : ℝ) (hr : 0 < radius)
    (hl : -(pi / 2) ≤ c.lat) (hu : c.lat ≤ pi / 2)
    (hd0 : 0 ≤ d) (hdr : d ≤ pi * radius) :
    c.great_circle_distance_to (c.moved_by d bearing radius) radius = d := by
  have k1 : 0 ≤ Real.cos c.lat := Real.cos_nonneg_of_mem_Icc ⟨hl, hu⟩
  have had0 : 0 ≤ d / radius := div_nonneg hd0 hr.le
  have hadpi : d / radius ≤ pi := by
    rw [div_le_iff₀ hr]
    exact hdr
  have hpy1 := Real.sin_sq_add_cos_sq c.lat
  have hpy2 := Real.sin_sq_add_cos_sq bearing
  have hpy3 := Real.sin_sq_add_cos_sq (d / radius)
  have hident : (Real.cos c.lat * Real.cos (d / radius)
        - Real.sin c.lat * Real.sin (d / radius) * Real.cos bearing) ^ 2
      + (Real.sin bearing * Real.sin (d / radius)) ^ 2
      = 1 - (Real.sin c.lat * Real.cos (d / radius)
        + Real.cos c.lat * Real.sin (d / radius) * Real.cos bearing) ^ 2 := by
    linear_combination hpy3 + Real.sin (d / radius) ^ 2 * hpy2
      + (Real.cos (d / radius) ^ 2 + Real.sin (d / radius) ^ 2 * Real.cos bearing ^ 2) * hpy1
  have hK2 : (Real.sin c.lat * Real.cos (d / radius)
      + Real.cos c.lat * Real.sin (d / radius) * Real.cos bearing) ^ 2 ≤ 1 := by
    nlinarith [hident,
      sq_nonneg (Real.cos c.lat * Real.cos (d / radius)
        - Real.sin c.lat * Real.sin (d / radius) * Real.cos bearing),
      sq_nonneg (Real.sin bearing * Real.sin (d / radius))]
  have hKabs := abs_le.mp ((sq_le_one_iff_abs_le_one _).mp hK2)
  have hsinK : Real.sin (Real.arcsin (Real.sin c.lat * Real.cos (d / radius)
        + Real.cos c.lat * Real.sin (d / radius) * Real.cos bearing))
      = Real.sin c.lat * Real.cos (d / radius)
        + Real.cos c.lat * Real.sin (d / radius) * Real.cos bearing :=
    Real.sin_arcsin hKabs.1 hKabs.2
  have hlat2 : (c.moved_by d bearing radius).lat
      = Real.arcsin (Real.sin c.lat * Real.cos (d / radius)
          + Real.cos c.lat * Real.sin (d / radius) * Real.cos bearing) := rfl
  have hlon2 : (c.moved_by d bearing radius).lon
      = c.lon + atan2 (Real.sin bearing * Real.sin (d / radius) * Real.cos c.lat)
          (Real.cos (d / radius) - Real.sin c.lat
            * Real.sin (Real.arcsin (Real.sin c.lat * Real.cos (d / radius)
                + Real.cos c.lat * Real.sin (d / radius) * Real.cos bearing))) := rfl
  have k2 : 0 ≤ Real.cos ((c.moved_by d bearing radius).lat) := by
    rw [hlat2]
    exact Real.cos_arcsin_nonneg _
  rw [great_circle_distance_arccos c (c.moved_by d bearing radius) radius k1 k2, hlat2, hlon2,
    hsinK, Real.cos_arcsin]
  rw [show ∀ A : ℝ, c.lon - (c.lon + A) = -A from fun A => by ring, Real.cos_neg]
  rw [dest_dot_core (Real.sin c.lat) (Real.cos c.lat) (Real.cos (d / radius))
    (Real.sin (d / radius)) (Real.cos bearing) (Real.sin bearing) hpy1 hpy2 hpy3 k1]
  rw [Real.arccos_cos had0 hadpi]
  field_simp

/-- Witness for C6: on the unit sphere, moving `(0,0)` by distance 0 lands at
great-circle distance 0. -/
theorem moved_by_advances_great_circle_distance_witness :
    Coordinate.great_circle_distance_to ⟨0, 0⟩ (Coordinate.moved_by ⟨0, 0⟩ 0 0 1) 1 = 0 := by
  have hpi := Real.pi_pos
  exact moved_by_advances_great_circle_distance ⟨0, 0⟩ 0 1 0 one_pos
    (by linarith) (by linarith) le_rfl (by nlinarith)

/-- C10 counterexample: at `phi = 2π` (allowed by the claim's `phi ∈ [0, 2π]`)
the round trip `to_coordinate ∘ to_point` returns `phi = 0`, not `2π`. -/
theorem point_round_trip_fails_at_two_pi :
    (Point.to_coordinate ⟨0, 2 * pi⟩).to_point.phi = 0 ∧ (0 : ℝ) ≠ 2 * pi := by
  have hpi := Real.pi_pos
  constructor
  · simp only [Point.to_coordinate, Coordinate.to_point,
      Coordinates.spherical_to_geographical_radians,
      Coordinates.geographical_radians_to_spherical]
    rw [if_neg (by linarith : ¬(2 * pi ≤ pi))]
    rw [show 2 * pi - 2 * pi = (0 : ℝ) by ring]
    rw [if_pos le_rfl]
  · intro h
    linarith

/-- C10 (amended): for `theta ∈ [0, π]` and `phi ∈ [0, 2π)` — the right end
excluded — converting a Point to a geographic Coordinate and back returns the
same theta and the same phi. -/
theorem point_to_coordinate_round_trip (p : Point)
    (ht0 : 0 ≤ p.theta) (htpi : p.theta ≤ pi)
    (hp0 : 0 ≤ p.phi) (hp2 : p.phi < 2 * pi) :
    (p.to_coordinate.to_point).theta = p.theta
      ∧ (p.to_coordinate.to_point).phi = p.phi := by
  constructor
  · simp only [Point.to_coordinate, Coordinate.to_point,
      Coordinates.spherical_to_geographical_radians,
      Coordinates.geographical_radians_to_spherical]
    ring
  · simp only [Point.to_coordinate, Coordinate.to_point,
      Coordinates.spherical_to_geographical_radians,
      Coordinates.geographical_radians_to_spherical]
    by_cases h : p.phi ≤ pi
    · rw [if_pos h, if_pos hp0]
    · rw [if_neg h, if_neg (by linarith : ¬(0 : ℝ) ≤ p.phi - 2 * pi)]
      ring

/-- Witness for C10 (amended) at `theta = 0`, `phi = 0`. -/
theorem point_to_coordinate_round_trip_witness :
    (Point.to_coordinate ⟨0, 0⟩).to_point.theta = 0
      ∧ (Point.to_coordinate ⟨0, 0⟩).to_point.phi = 0 := by
  have hpi := Real.pi_pos
  exact point_to_coordinate_round_trip ⟨0, 0⟩ le_rfl hpi.le le_rfl
    (show (0 : ℝ) < 2 * pi by linarith)

/-- C8: `animation_from_action` is total and exhaustive over the closed set of
twelve Action variants: it always returns an Animation, of the variant's
mapped Animation type, so the unknown-variant error branch is unreachable. -/
theorem animation_from_action_total (a : Actions.Action) :
    ∃ anim : Animation, animation_from_action a = some anim
      ∧ anim.tag = animationTagOf a.tag := by
  cases a <;> exact ⟨_, rfl, rfl⟩

/-- The haversine distance from a coordinate to itself is 0. -/
theorem great_circle_distance_to_self (c : Coordinate) (radius : ℝ) :
    c.great_circle_distance_to c radius = 0 := by
  simp [Coordinate.great_circle_distance_to]

/-- The great-circle distance from a Point to itself is 0. -/
theorem point_great_circle_distance_to_self (p : Point) (radius : ℝ) :
    p.great_circle_distance_to p radius = 0 :=
  great_circle_distance_to_self p.to_coordinate radius

/-- A successful `find?` in a prefix survives appending a suffix. -/
theorem find?_append_of_some {α : Type} (p : α → Bool) (l1 l2 : List α) (a : α)
    (h : l1.find? p = some a) : (l1 ++ l2).find? p = some a := by
  induction l1 with
  | nil => simp [List.find?] at h
  | cons x xs ih =>
    by_cases hp : p x = true
    · rw [List.find?_cons_of_pos _ hp] at h
      rw [List.cons_append, List.find?_cons_of_pos _ hp]
      exact h
    · rw [List.find?_cons_of_neg _ hp] at h
      rw [List.cons_append, List.find?_cons_of_neg _ hp]
      exact ih h

/-- `get_entity` is a `find?` over the registry list. -/
theorem State.get_entity_def (s : State) (id : Int) :
    s.get_entity id = s.entities.find? (fun e => e.id == id) := rfl

/-- Registered entities survive appending further entities. -/
theorem get_entity_append (s : State) (extra : List Entity) (id : Int) (e : Entity)
    (h : s.get_entity id = some e) :
    (State.mk s.elevation_function (s.entities ++ extra)).get_entity id = some e :=
  find?_append_of_some _ _ _ _ h

/-- `add_entity` on a negative (placeholder) id stores the entity under the
state's fresh id. -/
theorem add_entity_neg (s : State) (e : Entity) (h : e.id < 0) :
    s.add_entity e
      = (State.mk s.elevation_function (s.entities ++ [{ e with id := s.freshId }]),
         { e with id := s.freshId }) := by
  unfold State.add_entity
  rw [if_pos]
  show (decide (e.id < 0) || _) = true
  rw [decide_eq_true h, Bool.true_or]

/-- Every member of a list is bounded by the `foldr max` over it. -/
theorem le_foldr_max (l : List Int) (a b : Int) (h : a ∈ l) : a ≤ l.foldr max b := by
  induction l with
  | nil => cases h
  | cons x xs ih =>
    rcases List.mem_cons.mp h with rfl | hmem
    · exact le_max_left _ _
    · exact le_trans (ih hmem) (le_max_right _ _)

/-- Every registered id is strictly below the fresh id. -/
theorem id_lt_freshId (s : State) (e : Entity) (h : e ∈ s.entities) : e.id < s.freshId := by
  have hle : e.id ≤ (s.entities.map Entity.id).foldr max 0 :=
    le_foldr_max _ _ _ (List.mem_map_of_mem _ h)
  unfold State.freshId
  omega

/-- `add_entities` appends exactly its stored entities to the registry. -/
theorem add_entities_entities (s : State) (ds : List Entity) :
    (s.add_entities ds).1.entities = s.entities ++ (s.add_entities ds).2 := by
  induction ds generalizing s with
  | nil => simp [State.add_entities]
  | cons d ds ih =>
    show ((s.add_entity d).1.add_entities ds).1.entities = _
    rw [ih]
    have h1 : (s.add_entity d).1.entities = s.entities ++ [(s.add_entity d).2] := by
      unfold State.add_entity
      by_cases hc : (decide (d.id < 0) || s.entities.any fun x => x.id == d.id) = true
      · rw [if_pos hc]
      · rw [if_neg hc]
    rw [h1, List.append_assoc]
    rfl

/-- `add_entities` preserves the elevation function. -/
theorem add_entities_elevation (s : State) (ds : List Entity) :
    (s.add_entities ds).1.elevation_function = s.elevation_function := by
  induction ds generalizing s with
  | nil => rfl
  | cons d ds ih =>
    show ((s.add_entity d).1.add_entities ds).1.elevation_function = _
    rw [ih]
    unfold State.add_entity
    by_cases hc : (decide (d.id < 0) || s.entities.any fun x => x.id == d.id) = true
    · rw [if_pos hc]
    · rw [if_neg hc]

/-- `add_entities` stores one entity per drop. -/
theorem add_entities_length (s : State) (ds : List Entity) :
    (s.add_entities ds).2.length = ds.length := by
  induction ds generalizing s with
  | nil => rfl
  | cons d ds ih =>
    show ((s.add_entity d).1.add_entities ds).2.length + 1 = ds.length + 1
    rw [ih]

/-- `PickItemTask.start` either succeeds (PickStartAction + WaitJob) or
fails soft, leaving state, actions and job untouched. -/
theorem pickItem_startT_cases (s : State) (t : PickItemTask) :
    (∃ w, (PickItemTask.startT s t).2.2 = [Actions.Action.pickStart t.who_id w])
      ∨ ((PickItemTask.startT s t).1 = s
          ∧ (PickItemTask.startT s t).2.1.job = t.job
          ∧ (PickItemTask.startT s t).2.2 = []) := by
  unfold PickItemTask.startT
  repeat' split
  all_goals first
    | (right; exact ⟨rfl, rfl, rfl⟩)
    | (left; exact ⟨_, rfl⟩)

/-- `CraftTask.start` either succeeds (CraftStartAction) or fails soft with
job untouched. -/
theorem craft_startT_cases (s : State) (t : CraftTask) :
    (CraftTask.startT s t).2.2 = [Actions.Action.craftStart t.crafter_id]
      ∨ ((CraftTask.startT s t).1 = s
          ∧ (CraftTask.startT s t).2.1.job = t.job
          ∧ (CraftTask.startT s t).2.2 = []) := by
  unfold CraftTask.startT
  repeat' split
  all_goals first
    | (right; exact ⟨rfl, rfl, rfl⟩)
    | (left; rfl)

/-- C1 (amended): for the Task kinds MovementTask, WalkTask, PickItemTask and
CraftTask — and freshly constructed tasks, whose mutable `job` attribute is
still `None` — an empty Action list from `start` implies `get_job()` returns
none.  (UseItemTask, InventoryUpdateTask and DieAndDropTask do not satisfy
this: each can return an empty list from `start` while `get_job()` returns a
Job.) -/
theorem start_empty_actions_no_job_for_coupled_kinds (s : State) (t : Essentials.Task)
    (hfresh : t.freshlyConstructed) (hk : t.startJobCoupled = true)
    (hempty : (Essentials.Task.start s t).2.2 = []) :
    (Essentials.Task.start s t).2.1.get_job = none := by
  cases t with
  | movement t => simp [Essentials.Task.start, MovementTask.startT] at hempty
  | walk t => simp [Essentials.Task.start, WalkTask.startT] at hempty
  | useItem t => simp [Essentials.Task.startJobCoupled] at hk
  | inventoryUpdate t => simp [Essentials.Task.startJobCoupled] at hk
  | dieAndDrop t => simp [Essentials.Task.startJobCoupled] at hk
  | pickItem t =>
    have hj : t.job = none := hfresh
    have hcases := pickItem_startT_cases s t
    have hempty2 : (PickItemTask.startT s t).2.2 = [] := hempty
    rcases hcases with ⟨w, hw⟩ | ⟨_, hjob, _⟩
    · rw [hw] at hempty2
      cases hempty2
    · show (PickItemTask.startT s t).2.1.get_jobT = none
      unfold PickItemTask.get_jobT
      rw [hjob, hj]
  | craft t =>
    have hj : t.job = none := hfresh
    have hcases := craft_startT_cases s t
    have hempty2 : (CraftTask.startT s t).2.2 = [] := hempty
    rcases hcases with hw | ⟨_, hjob, _⟩
    · rw [hw] at hempty2
      cases hempty2
    · show (CraftTask.startT s t).2.1.get_jobT = none
      unfold CraftTask.get_jobT
      rw [hjob, hj]

/-- Evaluation of `UseItemTask.start` on the `PAIN` path: with performer,
item and an explicitly given in-range receiver whose first absorbed claim is
`PAIN`, `start` installs the `DamageJob` and still returns an empty Action
list. -/
theorem useItemTask_startT_pain (s : State) (t : UseItemTask)
    (performer item receiver : Entity) (rid : Int) (dist : ℝ)
    (hp : s.get_entity t.performer_id = some performer)
    (hi : s.get_entity t.item_id = some item)
    (hrid : t.receiver_id = some rid) (hrid0 : rid ≠ 0)
    (hr : s.get_entity rid = some receiver)
    (hd : s.calculate_distance performer receiver = some dist)
    (hdle : ¬ UseItemTask.MAX_DISTANCE < dist)
    (hfirst : receiver.features.get_first_absorbed item.features.delivery_claims
      = some Claim.PAIN) :
    UseItemTask.startT s t
      = (s, { t with
              receiver_id := some rid
              job := some (Job.damage t.performer_id rid t.item_id t.hand
                [Event.finished t.performer_id]) }, []) := by
  have hbeq : (rid == 0) = false := beq_eq_false_iff_ne.mpr hrid0
  unfold UseItemTask.startT UseItemTask.resolve
  simp only [hp, hi, hrid, hbeq, Bool.false_eq_true, if_false, hr, hd, hdle, if_false, hfirst]

/-- C1 counterexample: in a world with a pirate (id 1), an axe (id 2) and a
spruce (id 3) all at the same point, `UseItemTask.start` (receiver given,
resolved to the PAIN claim) returns an empty Action list while `get_job()`
returns the installed `DamageJob` — and `InventoryUpdateTask.start` likewise
returns an empty list while `get_job()` returns a `WaitJob`. -/
theorem start_empty_actions_but_job_counterexample :
    (Essentials.Task.start
        (State.mk (ElevationFunction.mk 1000)
          [mkPirate 1 (some (Point.mk 0 0)), mkAxe 2 (some (Point.mk 0 0)),
           mkSpruce 3 (some (Point.mk 0 0))])
        (Essentials.Task.useItem (UseItemTask.mk 1 2 (some 3) Hand.LEFT none))).2.2 = []
    ∧ (Essentials.Task.start
        (State.mk (ElevationFunction.mk 1000)
          [mkPirate 1 (some (Point.mk 0 0)), mkAxe 2 (some (Point.mk 0 0)),
           mkSpruce 3 (some (Point.mk 0 0))])
        (Essentials.Task.useItem (UseItemTask.mk 1 2 (some 3) Hand.LEFT none))).2.1.get_job
      ≠ none
    ∧ (Essentials.Task.start (State.mk (ElevationFunction.mk 1) [])
        (Essentials.Task.inventoryUpdate
          (InventoryUpdateTask.mk 1 Hand.LEFT 0 UpdateVariant.SWAP))).2.2 = []
    ∧ (Essentials.Task.start (State.mk (ElevationFunction.mk 1) [])
        (Essentials.Task.inventoryUpdate
          (InventoryUpdateTask.mk 1 Hand.LEFT 0 UpdateVariant.SWAP))).2.1.get_job
      ≠ none := by
  have hdist : (State.mk (ElevationFunction.mk 1000)
        [mkPirate 1 (some (Point.mk 0 0)), mkAxe 2 (some (Point.mk 0 0)),
         mkSpruce 3 (some (Point.mk 0 0))]).calculate_distance
        (mkPirate 1 (some (Point.mk 0 0))) (mkSpruce 3 (some (Point.mk 0 0)))
      = some 0 := by
    show some (Point.great_circle_distance_to (Point.mk 0 0) (Point.mk 0 0) 1000) = some 0
    rw [point_great_circle_distance_to_self]
  have hstart := useItemTask_startT_pain
    (State.mk (ElevationFunction.mk 1000)
      [mkPirate 1 (some (Point.mk 0 0)), mkAxe 2 (some (Point.mk 0 0)),
       mkSpruce 3 (some (Point.mk 0 0))])
    (UseItemTask.mk 1 2 (some 3) Hand.LEFT none)
    (mkPirate 1 (some (Point.mk 0 0))) (mkAxe 2 (some (Point.mk 0 0)))
    (mkSpruce 3 (some (Point.mk 0 0))) 3 0
    rfl rfl rfl (by norm_num) rfl hdist
    (by norm_num [UseItemTask.MAX_DISTANCE]) rfl
  refine ⟨?_, ?_, rfl, ?_⟩
  · show (UseItemTask.startT _ _).2.2 = []
    rw [hstart]
  · show Essentials.Task.get_job
      (Essentials.Task.useItem (UseItemTask.startT _ _).2.1) ≠ none
    rw [hstart]
    intro hcontra
    cases hcontra
  · intro hcontra
    cases hcontra

/-- Witness for C1 (amended): a freshly constructed PickItemTask in an empty
world fails soft in `start` and indeed exposes no Job. -/
theorem start_empty_actions_no_job_witness :
    (Essentials.Task.start (State.mk (ElevationFunction.mk 1) [])
        (Essentials.Task.pickItem (PickItemTask.mk 1 none Hand.LEFT none))).2.1.get_job
      = none := by
  refine start_empty_actions_no_job_for_coupled_kinds _ _ ?_ rfl rfl
  show (none : Option Job) = none
  rfl

/-- C3 counterexample: after `DieAndDropTask.start` in a world containing the
dying spruce (id 5), the spruce is still registered — `start` does not remove
the dying entity from the State registry (it only emits the
`DeleteActorsAction`). -/
theorem die_and_drop_start_keeps_dier_registered :
    ((DieAndDropTask.startT
        (State.mk (ElevationFunction.mk 1000) [mkSpruce 5 (some (Point.mk 0 0))])
        (DieAndDropTask.mk 5
          [mkLog (-1) (some (Point.mk 0 0)), mkLog (-1) (some (Point.mk 0 0)),
           mkLog (-1) (some (Point.mk 0 0))])).1.get_entity 5).isSome = true := rfl

/-- C3 (amended): if the dying entity is registered, `DieAndDropTask.start`
adds every drop to the registry (as the stored, id-assigned entities) and
returns `CreateActorsAction` for the drops followed by `DeleteActorsAction`
for the dier's id; the dying entity itself stays registered. -/
theorem die_and_drop_start_spec (s : State) (t : DieAndDropTask) (dier : Entity)
    (h : s.get_entity t.dier_id = some dier) :
    (DieAndDropTask.startT s t).1.entities = s.entities ++ (s.add_entities t.drops).2
      ∧ (s.add_entities t.drops).2.length = t.drops.length
      ∧ (DieAndDropTask.startT s t).2.2
        = [Actions.Action.createActors ((s.add_entities t.drops).2.map
              (fun d => Actor.mk d.id d.get_name d.position)),
           Actions.Action.deleteActors [t.dier_id]]
      ∧ (DieAndDropTask.startT s t).1.get_entity t.dier_id = some dier := by
  have hstart : DieAndDropTask.startT s t
      = ((s.add_entities t.drops).1, t,
         [Actions.Action.createActors ((s.add_entities t.drops).2.map
             (fun d => Actor.mk d.id d.get_name d.position)),
          Actions.Action.deleteActors [t.dier_id]]) := by
    unfold DieAndDropTask.startT
    simp only [h]
  refine ⟨?_, add_entities_length s t.drops, ?_, ?_⟩
  · rw [hstart]
    exact add_entities_entities s t.drops
  · rw [hstart]
  · rw [hstart]
    show (s.add_entities t.drops).1.get_entity t.dier_id = some dier
    rw [State.get_entity_def, add_entities_entities]
    exact find?_append_of_some _ _ _ _ h

/-- Witness for C3 (amended) on a one-spruce world with a single drop. -/
theorem die_and_drop_start_spec_witness :
    (DieAndDropTask.startT
        (State.mk (ElevationFunction.mk 1000) [mkSpruce 5 (some (Point.mk 0 0))])
        (DieAndDropTask.mk 5 [mkLog (-1) (some (Point.mk 0 0))])).1.get_entity 5
      = some (mkSpruce 5 (some (Point.mk 0 0))) :=
  (die_and_drop_start_spec
    (State.mk (ElevationFunction.mk 1000) [mkSpruce 5 (some (Point.mk 0 0))])
    (DieAndDropTask.mk 5 [mkLog (-1) (some (Point.mk 0 0))])
    (mkSpruce 5 (some (Point.mk 0 0))) rfl).2.2.2

/-- The entity stored by `add_entity` is registered afterwards. -/
theorem add_entity_stored_mem (s : State) (e : Entity) :
    (s.add_entity e).2 ∈ (s.add_entity e).1.entities := by
  unfold State.add_entity
  by_cases hc : (decide (e.id < 0) || s.entities.any fun x => x.id == e.id) = true
  · rw [if_pos hc]
    simp
  · rw [if_neg hc]
    simp

/-- `add_entity` keeps every previously registered entity registered. -/
theorem add_entity_mem_mono (s : State) (x e : Entity) (h : e ∈ s.entities) :
    e ∈ (s.add_entity x).1.entities := by
  unfold State.add_entity
  by_cases hc : (decide (x.id < 0) || s.entities.any fun y => y.id == x.id) = true
  · rw [if_pos hc]
    exact List.mem_append_left _ h
  · rw [if_neg hc]
    exact List.mem_append_left _ h

/-- C4 counterexample: the three Log entities produced by
`Spruce.generate_drops` all carry the placeholder id `-1`; their ids are not
pairwise distinct. -/
theorem spruce_drops_placeholder_ids :
    (Spruce.generate_drops (mkSpruce 7 (some (Point.mk 0 0)))).map
        (fun ds => ds.map Entity.id) = some [-1, -1, -1]
      ∧ ¬ ([(-1 : Int), -1, -1].Nodup) := by
  constructor
  · rfl
  · decide

/-- C4 (amended): `Spruce.generate_drops` produces its three Logs with the
placeholder id `-1`; pairwise-distinct ids absent from the registry arise
only when the modelled `State.add_entity` assigns fresh ids as
`DieAndDropTask.start` inserts the drops. -/
theorem drop_ids_fresh_only_after_insert (s : State) (e : Entity) (p : Point)
    (ds : List Entity) (hpos : e.position = some p)
    (hds : Spruce.generate_drops e = some ds) :
    ∃ i1 i2 i3 : Int,
      ((s.add_entities ds).2.map Entity.id) = [i1, i2, i3]
        ∧ i1 ≠ i2 ∧ i1 ≠ i3 ∧ i2 ≠ i3
        ∧ ∀ e2 ∈ s.entities, e2.id ≠ i1 ∧ e2.id ≠ i2 ∧ e2.id ≠ i3 := by
  unfold Spruce.generate_drops at hds
  simp only [hpos, Option.some.injEq] at hds
  subst hds
  refine ⟨s.freshId, (s.add_entity (mkLog (-1) (some p))).1.freshId,
    ((s.add_entity (mkLog (-1) (some p))).1.add_entity (mkLog (-1) (some p))).1.freshId,
    rfl, ?_, ?_, ?_, ?_⟩
  · exact ne_of_lt (id_lt_freshId _ _ (add_entity_stored_mem s (mkLog (-1) (some p))))
  · exact ne_of_lt (id_lt_freshId _ _
      (add_entity_mem_mono _ _ _ (add_entity_stored_mem s (mkLog (-1) (some p)))))
  · exact ne_of_lt (id_lt_freshId _ _
      (add_entity_stored_mem (s.add_entity (mkLog (-1) (some p))).1 (mkLog (-1) (some p))))
  · intro e2 he2
    have h0 : e2.id < s.freshId := id_lt_freshId s e2 he2
    have h12 : s.freshId < (s.add_entity (mkLog (-1) (some p))).1.freshId :=
      id_lt_freshId _ _ (add_entity_stored_mem s (mkLog (-1) (some p)))
    have h13 : s.freshId
        < ((s.add_entity (mkLog (-1) (some p))).1.add_entity (mkLog (-1) (some p))).1.freshId :=
      id_lt_freshId _ _
        (add_entity_mem_mono _ _ _ (add_entity_stored_mem s (mkLog (-1) (some p))))
    exact ⟨ne_of_lt h0, ne_of_lt (lt_trans h0 h12), ne_of_lt (lt_trans h0 h13)⟩

/-- Witness for C4 (amended) on a one-rock world. -/
theorem drop_ids_fresh_only_after_insert_witness :
    ∃ i1 i2 i3 : Int,
      (((State.mk (ElevationFunction.mk 1) [mkRocks 1 none]).add_entities
          [mkLog (-1) (some (Point.mk 0 0)), mkLog (-1) (some (Point.mk 0 0)),
           mkLog (-1) (some (Point.mk 0 0))]).2.map Entity.id) = [i1, i2, i3]
        ∧ i1 ≠ i2 ∧ i1 ≠ i3 ∧ i2 ≠ i3
        ∧ ∀ e2 ∈ (State.mk (ElevationFunction.mk 1) [mkRocks 1 none]).entities,
            e2.id ≠ i1 ∧ e2.id ≠ i2 ∧ e2.id ≠ i3 :=
  drop_ids_fresh_only_after_insert _ (mkSpruce 7 (some (Point.mk 0 0))) (Point.mk 0 0)
    _ rfl rfl

/-- Evaluation of `PickItemTask.start` on its success path: with the target
given, both entities registered and the distance within the bound, `start`
installs the `WaitJob` and emits `PickStartAction` — no feature check is
performed. -/
theorem pickItemTask_startT_success (s : State) (t : PickItemTask) (w : Int)
    (who item : Entity) (dist : ℝ)
    (hw : t.what_id = some w)
    (h1 : s.get_entity t.who_id = some who)
    (h2 : s.get_entity w = some item)
    (hd : s.calculate_distance who item = some dist)
    (hdle : ¬ PickItemTask.MAX_DISTANCE < dist) :
    PickItemTask.startT s t
      = (s, { t with
              what_id := some w
              job := some (Job.wait PickItemTask.PICK_DURATION [Event.finished t.who_id]) },
         [Actions.Action.pickStart t.who_id w]) := by
  unfold PickItemTask.startT PickItemTask.resolve
  simp only [hw, h1, h2, hd, hdle, if_false]

/-- C5 (amended): `PickItemTask.start` fails soft — unchanged state, empty
Action list, no Job — exactly on its own precondition failures (unresolved
target, absent picker or item, undefined or too-large distance), and
`PickItemTask.finish` fails soft on those plus the feature checks (picker
without `Inventory`, item without `Inventorable`); the feature conditions are
checked only by `finish`, not by `start`.  No exception is raised: both
functions are total. -/
theorem pick_item_fails_soft :
    (∀ (s : State) (t : PickItemTask), t.job = none → PickItemTask.startFails s t →
        (PickItemTask.startT s t).1 = s ∧ (PickItemTask.startT s t).2.2 = []
          ∧ (PickItemTask.startT s t).2.1.job = none)
      ∧ (∀ (s : State) (t : PickItemTask), PickItemTask.finishFails s t →
          PickItemTask.finishT s t = (s, [])) := by
  constructor
  · intro s t hjob hf
    unfold PickItemTask.startT
    repeat' split
    all_goals first
      | exact ⟨rfl, rfl, hjob⟩
      | (exfalso
         unfold PickItemTask.startFails at hf
         simp_all)
  · intro s t hf
    unfold PickItemTask.finishT
    repeat' split
    all_goals first
      | rfl
      | (exfalso
         unfold PickItemTask.finishFails at hf
         simp_all)

/-- Witness for C5 (amended): with picker and item absent from an empty
world, `start` and `finish` both fail soft. -/
theorem pick_item_fails_soft_witness :
    ((PickItemTask.startT (State.mk (ElevationFunction.mk 1) [])
          (PickItemTask.mk 1 (some 2) Hand.LEFT none)).1
        = State.mk (ElevationFunction.mk 1) []
      ∧ (PickItemTask.startT (State.mk (ElevationFunction.mk 1) [])
          (PickItemTask.mk 1 (some 2) Hand.LEFT none)).2.2 = []
      ∧ (PickItemTask.startT (State.mk (ElevationFunction.mk 1) [])
          (PickItemTask.mk 1 (some 2) Hand.LEFT none)).2.1.job = none)
    ∧ PickItemTask.finishT (State.mk (ElevationFunction.mk 1) [])
        (PickItemTask.mk 1 (some 2) Hand.LEFT none)
      = (State.mk (ElevationFunction.mk 1) [], []) := by
  constructor
  · exact pick_item_fails_soft.1 _ _ rfl trivial
  · exact pick_item_fails_soft.2 _ _ trivial

/-- C5 counterexample: a picker that lacks the `Inventory` feature (a
warrior) next to an inventorable item still gets a non-empty Action list and
a Job from `PickItemTask.start` — the feature precondition is not checked by
`start`, so its failure does not make `start` fail soft. -/
theorem pick_item_start_ignores_missing_features :
    (mkWarrior 1 (some (Point.mk 0 0))).features.inventory = none
    ∧ (PickItemTask.startT
        (State.mk (ElevationFunction.mk 1000)
          [mkWarrior 1 (some (Point.mk 0 0)), mkRocks 2 (some (Point.mk 0 0))])
        (PickItemTask.mk 1 (some 2) Hand.LEFT none)).2.2
      = [Actions.Action.pickStart 1 2]
    ∧ (PickItemTask.startT
        (State.mk (ElevationFunction.mk 1000)
          [mkWarrior 1 (some (Point.mk 0 0)), mkRocks 2 (some (Point.mk 0 0))])
        (PickItemTask.mk 1 (some 2) Hand.LEFT none)).2.1.job ≠ none := by
  have hdist : (State.mk (ElevationFunction.mk 1000)
        [mkWarrior 1 (some (Point.mk 0 0)), mkRocks 2 (some (Point.mk 0 0))]).calculate_distance
        (mkWarrior 1 (some (Point.mk 0 0))) (mkRocks 2 (some (Point.mk 0 0)))
      = some 0 := by
    show some (Point.great_circle_distance_to (Point.mk 0 0) (Point.mk 0 0) 1000) = some 0
    rw [point_great_circle_distance_to_self]
  have hstart := pickItemTask_startT_success
    (State.mk (ElevationFunction.mk 1000)
      [mkWarrior 1 (some (Point.mk 0 0)), mkRocks 2 (some (Point.mk 0 0))])
    (PickItemTask.mk 1 (some 2) Hand.LEFT none) 2
    (mkWarrior 1 (some (Point.mk 0 0))) (mkRocks 2 (some (Point.mk 0 0))) 0
    rfl rfl rfl hdist (by norm_num [PickItemTask.MAX_DISTANCE])
  refine ⟨rfl, ?_, ?_⟩
  · rw [hstart]
  · rw [hstart]
    intro hcontra
    cases hcontra

/-- C9: whenever the crafter exists, has the `Inventory` feature and no free
hand, `CraftTask.start` returns an empty Action list and installs no Job —
for every assembly, valid or not, because the free-hand check precedes recipe
validation. -/
theorem craft_start_requires_free_hand (s : State) (t : CraftTask)
    (crafter : Entity) (inv : Inventory)
    (hjob : t.job = none)
    (h1 : s.get_entity t.crafter_id = some crafter)
    (h2 : crafter.features.inventory = some inv)
    (h3 : inv.get_free_hand = none) :
    CraftTask.startT s t = (s, t, []) ∧ (CraftTask.startT s t).2.1.job = none := by
  have heq : CraftTask.startT s t = (s, t, []) := by
    unfold CraftTask.startT
    simp only [h1, h2, h3]
  refine ⟨heq, ?_⟩
  rw [heq]
  exact hjob

/-- Witness for C9: a crafter with both hands occupied and a trivially
satisfied assembly still gets an empty start and no Job. -/
theorem craft_start_requires_free_hand_witness :
    CraftTask.startT
        (State.mk (ElevationFunction.mk 1)
          [Entity.mk 1 none "pirate" Essence.HERO
            (Features.mk none none none none
              (some (Inventory.mk (some (Entry.mk 8 Essence.ROCKS 1 ""))
                (some (Entry.mk 9 Essence.GOLD 1 "")) [])) none false)])
        (CraftTask.mk 1 (Assembly.mk "axe" []) none)
      = (State.mk (ElevationFunction.mk 1)
          [Entity.mk 1 none "pirate" Essence.HERO
            (Features.mk none none none none
              (some (Inventory.mk (some (Entry.mk 8 Essence.ROCKS 1 ""))
                (some (Entry.mk 9 Essence.GOLD 1 "")) [])) none false)],
         CraftTask.mk 1 (Assembly.mk "axe" []) none, []) :=
  (craft_start_requires_free_hand
    (State.mk (ElevationFunction.mk 1)
      [Entity.mk 1 none "pirate" Essence.HERO
        (Features.mk none none none none
          (some (Inventory.mk (some (Entry.mk 8 Essence.ROCKS 1 ""))
            (some (Entry.mk 9 Essence.GOLD 1 "")) [])) none false)])
    (CraftTask.mk 1 (Assembly.mk "axe" []) none)
    (Entity.mk 1 none "pirate" Essence.HERO
      (Features.mk none none none none
        (some (Inventory.mk (some (Entry.mk 8 Essence.ROCKS 1 ""))
          (some (Entry.mk 9 Essence.GOLD 1 "")) [])) none false))
    (Inventory.mk (some (Entry.mk 8 Essence.ROCKS 1 ""))
      (some (Entry.mk 9 Essence.GOLD 1 "")) [])
    rfl rfl rfl rfl).1

/-- C2: on the merge harness (hand stack of quantity `S`, same-essence pocket
stack of quantity `T`, capacity `C`): if `S+T ≤ C` the hand slot empties, the
hand stack's backing entity is removed from State and the pocket stack holds
`S+T`; if `S+T > C` the pocket stack holds `C`, the hand stack `S+T-C`, and
both entities remain registered. -/
theorem merge_entities_spec (S T C : Nat) :
    (S + T ≤ C →
        ((mergeScenarioState S T C).merge_entities (mergeScenarioInventory S T)
            Hand.LEFT 2).2.get_hand_entry Hand.LEFT = none
          ∧ ((mergeScenarioState S T C).merge_entities (mergeScenarioInventory S T)
              Hand.LEFT 2).1.get_entity 1 = none
          ∧ (((mergeScenarioState S T C).merge_entities (mergeScenarioInventory S T)
              Hand.LEFT 2).2.get_pocket_entry 2).map Entry.quantity = some (S + T)
          ∧ ((mergeScenarioState S T C).merge_entities (mergeScenarioInventory S T)
              Hand.LEFT 2).1.stack_size_of 2 = some (S + T))
      ∧ (C < S + T →
          (((mergeScenarioState S T C).merge_entities (mergeScenarioInventory S T)
              Hand.LEFT 2).2.get_pocket_entry 2).map Entry.quantity = some C
          ∧ (((mergeScenarioState S T C).merge_entities (mergeScenarioInventory S T)
              Hand.LEFT 2).2.get_hand_entry Hand.LEFT).map Entry.quantity
            = some (S + T - C)
          ∧ ((mergeScenarioState S T C).merge_entities (mergeScenarioInventory S T)
              Hand.LEFT 2).1.stack_size_of 1 = some (S + T - C)
          ∧ ((mergeScenarioState S T C).merge_entities (mergeScenarioInventory S T)
              Hand.LEFT 2).1.stack_size_of 2 = some C
          ∧ (((mergeScenarioState S T C).merge_entities (mergeScenarioInventory S T)
              Hand.LEFT 2).1.get_entity 1).isSome = true
          ∧ (((mergeScenarioState S T C).merge_entities (mergeScenarioInventory S T)
              Hand.LEFT 2).1.get_entity 2).isSome = true) := by
  constructor
  · intro h
    refine ⟨?_, ?_, ?_, ?_⟩ <;>
      simp [State.merge_entities, mergeScenarioState, mergeScenarioInventory,
        Inventory.get_hand_entry, Inventory.get_pocket_entry, State.get_entity,
        State.remove_entity, State.update_entity, State.stack_size_of,
        Inventory.set_hand, Inventory.set_pocket, Entity.set_stack_size, h]
  · intro h
    have hn : ¬ (S + T ≤ C) := not_le.mpr h
    refine ⟨?_, ?_, ?_, ?_, ?_, ?_⟩ <;>
      simp [State.merge_entities, mergeScenarioState, mergeScenarioInventory,
        Inventory.get_hand_entry, Inventory.get_pocket_entry, State.get_entity,
        State.remove_entity, State.update_entity, State.stack_size_of,
        Inventory.set_hand, Inventory.set_pocket, Entity.set_stack_size, hn]

/-- Witness for C2 at the test's quantities: `2+2 ≤ 20` merges into one stack
of 4 with the hand emptied; `12+12 > 20` fills the pocket to 20. -/
theorem merge_entities_spec_witness :
    (((mergeScenarioState 2 2 20).merge_entities (mergeScenarioInventory 2 2)
          Hand.LEFT 2).2.get_hand_entry Hand.LEFT = none
      ∧ (((mergeScenarioState 2 2 20).merge_entities (mergeScenarioInventory 2 2)
          Hand.LEFT 2).2.get_pocket_entry 2).map Entry.quantity = some 4)
    ∧ (((mergeScenarioState 12 12 20).merge_entities (mergeScenarioInventory 12 12)
          Hand.LEFT 2).2.get_pocket_entry 2).map Entry.quantity = some 20
    ∧ (((mergeScenarioState 12 12 20).merge_entities (mergeScenarioInventory 12 12)
          Hand.LEFT 2).2.get_hand_entry Hand.LEFT).map Entry.quantity = some 4 := by
  have h1 := (merge_entities_spec 2 2 20).1 (by norm_num)
  have h2 := (merge_entities_spec 12 12 20).2 (by norm_num)
  exact ⟨⟨h1.1, h1.2.2.1⟩, h2.1, h2.2.1⟩
